import Mathlib

/-!
Shallow embedding, in Lean 4, of the ticket-processing workflow core of the
aws-samples/mistral-on-aws repository, together with proofs checking the
natural-language specification against the code.

Two source components are embedded:

* the MCP demo agent (src/MCP/MCP_Mistral_app_demo/src/utility.py and agent.py):
  tool registry (`UtilityHelper`), tool execution (`execute_tool`) and the
  recursive reasoning loop (`BedrockConverseAgent.invoke` / `_handle_response`);

* the Customer-Support LangGraph workflow
  (src/Blogs/Customer-Support/cs_cust_support_flow.py and cs_util.py):
  the workflow state, the stage functions, the conditional routing, the usage
  recorder (`add_usage`) and the structured-output cleaner (`clean_json_string`).

External collaborators (the Bedrock model, the Jira ticketing system, the SQLite
store, the JSON decoder of the Python standard library) are modelled as oracle
parameters: a script of model responses consumed in order, abstract lookup
functions for the stores, and an abstract JSON-object decoder.  Everything else
is translated directly from the Python source.
-/

namespace MistralOnAws

namespace MCP

/-- Python-like runtime values, as far as the tool protocol needs them:
strings, numbers and string-keyed dicts. -/
inductive Value where
  | vStr : String → Value
  | vNat : Nat → Value
  | vDict : List (String × Value) → Value
deriving Repr, Inhabited

/-- Python `repr` of a `Value` (dict printing as `\x7b'k': v\x7d`). -/
def pyRepr : Value → String
  | .vStr s => "\x27" ++ s ++ "\x27"
  | .vNat n => toString n
  | .vDict kvs => "\x7b" ++ go kvs ++ "\x7d"
where
  go : List (String × Value) → String
  | [] => ""
  | [(k, v)] => "\x27" ++ k ++ "\x27: " ++ pyRepr v
  | (k, v) :: rest => "\x27" ++ k ++ "\x27: " ++ pyRepr v ++ ", " ++ go rest

/-- Python `str` of a `Value`: a bare string prints without quotes, everything
else prints as its `repr`. -/
def pyStr : Value → String
  | .vStr s => s
  | v => pyRepr v

/-- `"k" in d` for a Python dict modelled as an association list. -/
def dictHas (kvs : List (String × Value)) (k : String) : Bool :=
  kvs.any (fun kv => kv.1 == k)

/-- `d[k]` for a Python dict modelled as an association list (keys unique). -/
def dictGet (kvs : List (String × Value)) (k : String) : Value :=
  match kvs.find? (fun kv => kv.1 == k) with
  | some kv => kv.2
  | none => .vStr ""

/-- One registered tool: the async implementation (taking the original name and
the input, returning a value or raising an exception carrying a message), the
description, the input schema and the original (pre-normalization) name.
Mirrors the dict stored by `UtilityHelper.register_tool`. -/
structure ToolEntry where
  func : String → Value → Except String Value
  description : String
  inputSchema : Value
  originalName : String

/-- The tool registry `UtilityHelper._tools`: corrected name to entry. -/
abbrev Registry := List (String × ToolEntry)

/-- `UtilityHelper._correct_name`: `name.replace("-", "_")` — the pattern is a
single character, so the replacement is a character map. -/
def correctName (name : String) : String :=
  String.mk (name.data.map (fun c => if c = Char.ofNat 45 then Char.ofNat 95 else c))

/-- Python dict assignment `d[k] = v`: overwrite in place, or append if new. -/
def dictAssign (reg : Registry) (k : String) (e : ToolEntry) : Registry :=
  if (List.any reg (fun kv => kv.1 == k)) then
    List.map (fun kv => if kv.1 == k then (k, e) else kv) reg
  else
    reg ++ [(k, e)]

/-- `UtilityHelper.register_tool`: normalize the name and store the entry. -/
def registerTool (reg : Registry) (name : String)
    (func : String → Value → Except String Value)
    (description : String) (inputSchema : Value) : Registry :=
  dictAssign reg (correctName name)
    { func := func, description := description, inputSchema := inputSchema,
      originalName := name }

/-- A tool-call request extracted from the model response:
`\x7b"toolUseId", "name", "input"\x7d`. -/
structure ToolRequest where
  toolUseId : String
  name : String
  input : Value
deriving Repr

/-- A text content block of a tool-result payload. -/
structure ContentBlock where
  text : String
deriving Repr, DecidableEq

/-- The tool-result payload returned by `execute_tool`. -/
structure ToolResult where
  toolUseId : String
  content : List ContentBlock
  status : String
deriving Repr, DecidableEq

/-- The unwrap step of `execute_tool`: if the tool returned a dict with both a
"result" and a "tool_info" key, the actual result is its "result" entry;
otherwise (legacy format) the returned value itself. -/
def extractResult (v : Value) : Value :=
  match v with
  | .vDict kvs =>
      if dictHas kvs "result" && dictHas kvs "tool_info" then dictGet kvs "result"
      else v
  | _ => v

/-- `UtilityHelper.execute_tool`.  The unknown-name check happens BEFORE the
try/except block in the source, so an unregistered name raises
`ValueError("Unknown tool ... not found")` (modelled as `.error`); only
exceptions raised by a registered tool implementation are converted into a
tool-result with `status = "error"`. -/
def executeTool (reg : Registry) (payload : ToolRequest) : Except String ToolResult :=
  match List.find? (fun kv => kv.1 == payload.name) reg with
  | none => .error ("Unknown tool " ++ payload.name ++ " not found")
  | some kv =>
      match kv.2.func kv.2.originalName payload.input with
      | .ok resultData =>
          .ok { toolUseId := payload.toolUseId,
                content := [{ text := pyStr (extractResult resultData) }],
                status := "success" }
      | .error e =>
          .ok { toolUseId := payload.toolUseId,
                content := [{ text := "Error executing tool: " ++ e }],
                status := "error" }

/-- A content item of a Bedrock Converse message.  A response content block is
a dict which (as used by `_handle_response`) either has a `text` entry, or a
`toolUse` entry, or is a `toolResult` wrapper sent back by the agent. -/
inductive AContent where
  | text : String → AContent
  | toolUse : String → String → Value → AContent
  | toolResult : ToolResult → AContent
deriving Repr

/-- A role-tagged conversation message (`self.messages` entries). -/
structure Message where
  role : String
  content : List AContent
deriving Repr

/-- A raw model response, reduced to the parts `_handle_response` reads:
`response['stopReason']` and `response['output']['message']`. -/
structure ModelResponse where
  stopReason : String
  message : Message
deriving Repr

/-- `\x7b"role": "user", "content": content\x7d` as appended by `invoke`. -/
def userMsg (content : List AContent) : Message :=
  { role := "user", content := content }

/-- `content[0].get('text', '')` guarded by the `except (KeyError, IndexError)`
handler of `_handle_response`: an empty content list (IndexError) and a first
block without a `text` entry (`.get` default) both yield `''`. -/
def firstText (items : List AContent) : String :=
  match items with
  | [] => ""
  | .text s :: _ => s
  | _ :: _ => ""

/-- Does `pat` occur in `s` starting at index `i`? -/
def strAt (pat s : List Char) (i : Nat) : Bool :=
  pat.isPrefixOf (s.drop i)

/-- Index of the first occurrence of `pat` in `s` at or after `start`. -/
def firstOccFrom (pat s : List Char) (start : Nat) : Option Nat :=
  List.find? (fun j => decide (start ≤ j) && strAt pat s j) (List.range (s.length + 1))

/-- The regex `(?s).*o(.*?)c` of `_handle_response`: the greedy `.*` selects the
last occurrence of the opening tag that is still followed by the closing tag;
the lazy group then runs to the first closing tag after it.  When the pattern
does not match, the text is returned unmodified. -/
def applyTagsL (o c s : List Char) : List Char :=
  let cand := List.filter
    (fun i => strAt o s i && (firstOccFrom c s (i + o.length)).isSome)
    (List.range (s.length + 1))
  match cand.getLast? with
  | none => s
  | some i =>
      match firstOccFrom c s (i + o.length) with
      | none => s
      | some j => List.take (j - (i + o.length)) (List.drop (i + o.length) s)

/-- The `response_output_tags` post-processing: applied only when exactly two
tags are configured (the repository never sets them, leaving the default `[]`). -/
def applyTags (tags : List String) (text : String) : String :=
  match tags with
  | [o, c] => String.mk (applyTagsL o.data c.data text.data)
  | _ => text

/-- The image extensions of `BedrockConverseAgent._is_image_url`. -/
def imageExts : List (List Char) :=
  [ "jpg".data, "jpeg".data, "png".data, "gif".data, "bmp".data,
    "webp".data, "svg".data ]

/-- `BedrockConverseAgent._is_image_url`, as a match test for the pattern
`(https?://[^\s]+\.(jpg|jpeg|png|gif|bmp|webp|svg))(\?[^\s]*)?` (IGNORECASE):
some position starts with `http://` or `https://` and the run of non-whitespace
characters after the scheme contains `.ext` preceded by at least one character. -/
def isImageUrl (s : String) : Bool :=
  let lcs := s.data.map Char.toLower
  List.any (List.range (lcs.length + 1)) (fun i =>
    let plen : Nat :=
      if strAt "https://".data lcs i then 8
      else if strAt "http://".data lcs i then 7
      else 0
    if plen == 0 then false
    else
      let run := List.takeWhile (fun ch => !ch.isWhitespace) (List.drop (i + plen) lcs)
      List.any (List.range (run.length + 1)) (fun m =>
        decide (1 ≤ m) &&
        List.any imageExts (fun e => strAt (Char.ofNat 46 :: e) run m)))

/-- Tool-use content blocks of a response message, in order, as gathered by the
`tool_use` branch of `_handle_response`. -/
def toolUses (items : List AContent) : List ToolRequest :=
  items.filterMap (fun it =>
    match it with
    | .toolUse id n inp => some { toolUseId := id, name := n, input := inp }
    | _ => none)

/-- Sequential execution of the requested tool calls; the first raised
exception aborts the whole loop (re-raised by `_handle_response` as
`ValueError("Failed to execute tool: ...")`). -/
def execAll (reg : Registry) : List ToolRequest → Except String (List ToolResult)
  | [] => .ok []
  | r :: rs =>
      match executeTool reg r with
      | .error e => .error e
      | .ok tr =>
          match execAll reg rs with
          | .error e => .error e
          | .ok trs => .ok (tr :: trs)

/-- Result of one (possibly recursive) `invoke`/`_handle_response` run:
the returned value (`some text` for natural completion, `none` for the Python
`None` returned by the `max_tokens` branch) or the raised exception message,
the number of further model invocations made below this point, and the final
conversation. -/
structure LoopOut where
  result : Except String (Option String)
  calls : Nat
  msgs : List Message
deriving Repr

/-- The error used to model `_get_converse_response` raising when the response
script (the model-invocation oracle) is exhausted. -/
def noResponseError : String := "Error calling Bedrock API: no response"

/-- `BedrockConverseAgent._handle_response`, driven by a script `rest` of the
model responses still to come.  `msgs` is the conversation after the current
response message has been appended; `r` is the current response.  Each
recursive model invocation consumes the head of `rest` (appending the user-role
message and the model output message exactly as `invoke` does). -/
def handleScript (reg : Registry) (tags : List String) :
    List Message → ModelResponse → List ModelResponse → LoopOut
  | msgs, r, rest =>
    if r.stopReason == "end_turn" || r.stopReason == "stop_sequence" then
      { result := .ok (some (applyTags tags (firstText r.message.content))),
        calls := 0, msgs := msgs }
    else if r.stopReason == "tool_use" then
      match execAll reg (toolUses r.message.content) with
      | .error e =>
          { result := .error ("Failed to execute tool: " ++ e), calls := 0,
            msgs := msgs }
      | .ok trs =>
          match rest with
          | [] =>
              { result := .error noResponseError, calls := 0,
                msgs := msgs ++ [userMsg (trs.map AContent.toolResult)] }
          | r' :: rest' =>
              let out := handleScript reg tags
                (msgs ++ [userMsg (trs.map AContent.toolResult), r'.message]) r' rest'
              { out with calls := out.calls + 1 }
    else if r.stopReason == "max_tokens" then
      match rest with
      | [] =>
          { result := .error noResponseError, calls := 0,
            msgs := msgs ++ [userMsg [AContent.text "Please continue."]] }
      | r' :: rest' =>
          let inner := handleScript reg tags
            (msgs ++ [userMsg [AContent.text "Please continue."], r'.message]) r' rest'
          match inner.result with
          | .error e => { inner with result := .error e, calls := inner.calls + 1 }
          | .ok _ => { inner with result := .ok none, calls := inner.calls + 1 }
    else
      { result := .error ("Unknown stop reason: " ++ r.stopReason), calls := 0,
        msgs := msgs }
termination_by structural msgs r rest => rest

/-- `BedrockConverseAgent.invoke(content)`: append the user message, invoke the
model (consume the script head) and hand the response to `_handle_response`. -/
def invokeScript (reg : Registry) (tags : List String) (msgs : List Message)
    (content : List AContent) : List ModelResponse → LoopOut
  | [] =>
      { result := .error noResponseError, calls := 0,
        msgs := msgs ++ [userMsg content] }
  | r :: rest =>
      let out := handleScript reg tags (msgs ++ [userMsg content, r.message]) r rest
      { out with calls := out.calls + 1 }

/-- Total number of tool-use content blocks in a conversation. -/
def countToolUseBlocks (msgs : List Message) : Nat :=
  (msgs.map (fun m => (toolUses m.content).length)).sum

/-- Total number of tool-result content blocks in a conversation. -/
def countToolResultBlocks (msgs : List Message) : Nat :=
  (msgs.map (fun m => (m.content.filterMap (fun it =>
    match it with
    | .toolResult tr => some tr
    | _ => none)).length)).sum

/-- A request for a tool that is not registered. -/
def unknownReq : ToolRequest :=
  { toolUseId := "t1", name := "get_time", input := .vDict [] }

/-- A model response that asks for the unregistered tool. -/
def unknownToolResp : ModelResponse :=
  { stopReason := "tool_use",
    message := { role := "assistant",
                 content := [.toolUse "t1" "get_time" (.vDict [])] } }

/-- A tool implementation returning the structured
`\x7bresult, tool_info\x7d` envelope (the format produced by
`MCPClient.call_tool`). -/
def weatherReturn : Value :=
  .vDict [("result", .vStr "sunny"),
          ("tool_info", .vDict [("tool_name", .vStr "get_weather")])]

/-- Implementation of the demo weather tool. -/
def weatherFunc : String → Value → Except String Value := fun _ _ => .ok weatherReturn

/-- Implementation of a tool whose execution raises. -/
def brokenFunc : String → Value → Except String Value := fun _ _ => .error "boom"

/-- A registry holding one succeeding and one raising tool (registered under
their original hyphenated names, normalized by `register_tool`). -/
def demoRegistry : Registry :=
  registerTool
    (registerTool [] "get-weather" weatherFunc "Get the weather" (.vDict []))
    "broken-tool" brokenFunc "Always fails" (.vDict [])

/-- A response truncated at the token limit. -/
def maxTokensResp : ModelResponse :=
  { stopReason := "max_tokens",
    message := { role := "assistant", content := [.text "partial answer"] } }

/-- A natural completion carrying the text `world`. -/
def endTurnResp : ModelResponse :=
  { stopReason := "end_turn",
    message := { role := "assistant", content := [.text "world"] } }

end MCP

namespace CS

/-! ### cs_util.py: the structured-output cleaner -/

/-- The opening fence matched by `clean_json_string`
(regex literal part before the lazy group). -/
def fenceOpen : List Char := "```json\n".data

/-- The closing fence (regex literal part after the lazy group). -/
def fenceClose : List Char := "```".data

/-- Split `s` at the first occurrence of `pat`: returns the part strictly
before the occurrence and the part strictly after it. -/
def splitFirst (pat : List Char) : List Char → Option (List Char × List Char)
  | [] => if pat.isPrefixOf ([] : List Char) then some ([], []) else none
  | c :: cs =>
      if pat.isPrefixOf (c :: cs) then some ([], List.drop pat.length (c :: cs))
      else (splitFirst pat cs).map (fun p => (c :: p.1, p.2))

/-- Python `str.strip()`: drop whitespace from both ends. -/
def trimL (s : List Char) : List Char :=
  ((s.dropWhile Char.isWhitespace).reverse.dropWhile Char.isWhitespace).reverse

/-- `Utility.clean_json_string` on character lists.  `re.search` with the
pattern's literal prefix finds the first opening fence followed (lazily) by the
first closing fence after it; the fenced inner content is returned stripped,
and any string without such a match falls through to the stripped original. -/
def cleanJsonL (s : List Char) : List Char :=
  match splitFirst fenceOpen s with
  | none => trimL s
  | some (_, rest) =>
      match splitFirst fenceClose rest with
      | none => trimL s
      | some (inner, _) => trimL inner

/-- `Utility.clean_json_string`. -/
def clean_json_string (s : String) : String := String.mk (cleanJsonL s.data)

/-- Does `pat` occur as a contiguous sublist of `s`? -/
def containsPat (pat : List Char) : List Char → Bool
  | [] => pat.isPrefixOf ([] : List Char)
  | c :: cs => pat.isPrefixOf (c :: cs) || containsPat pat cs

/-- Python `str.strip()` on `String`. -/
def strip (s : String) : String := String.mk (trimL s.data)

/-- Python `str.lower()` on `String`. -/
def lower (s : String) : String := String.mk (s.data.map Char.toLower)

/-! ### cs_cust_support_flow.py: data model -/

/-- `latencyMs` from the Bedrock response metadata: a single sample or a list
of per-retry samples. -/
inductive Latency where
  | single : Nat → Latency
  | multi : List Nat → Latency
deriving Repr, DecidableEq

/-- The latency totalling loop of `CustomerSupport.add_usage`: sum a list of
samples, or take the single sample as-is. -/
def latencyTotal : Latency → Nat
  | .single n => n
  | .multi l => List.foldl (fun a b => a + b) 0 l

/-- One record of the `usage` list. -/
structure UsageRecord where
  modelName : String
  inputTokens : Nat
  outputTokens : Nat
  latency : Nat
deriving Repr, DecidableEq

/-- A LangChain tool call attached to an `AIMessage`
(both registered tools take an `order_no` argument). -/
structure ToolCall where
  callId : String
  name : String
  orderNo : String
deriving Repr, DecidableEq

/-- An `AIMessage` as consumed by the workflow: content, usage metadata and the
tool calls requested by the model. -/
structure AIMsg where
  content : String
  modelName : String
  inputTokens : Nat
  outputTokens : Nat
  latency : Latency
  toolCalls : List ToolCall
deriving Repr, DecidableEq

/-- A content block of a multimodal `HumanMessage`. -/
inductive Block where
  | text : String → Block
  | image : String → Block
deriving Repr, DecidableEq

/-- A LangChain conversation message of the workflow state. -/
inductive CSMessage where
  | system : String → CSMessage
  | human : List Block → CSMessage
  | ai : AIMsg → CSMessage
  | toolMsg : String → String → CSMessage
deriving Repr, DecidableEq

/-- `JiraAppState`: the workflow state threaded through every stage. -/
structure CSState where
  key : String
  summary : String
  description : String
  attachments : List String
  category : String
  response : String
  transactionId : String
  orderNo : String
  usage : List UsageRecord
  messages : List CSMessage
deriving Repr, DecidableEq

/-- Which of the bound model clients a stage invokes (`llm`, `vision_llm`,
`llm_with_guardrails`, or `llm.bind_tools(...)`). -/
inductive ModelKind where
  | text
  | vision
  | guardrails
  | textWithTools
deriving Repr, DecidableEq

/-- One model invocation as observed at the client boundary: which client and
with which message list as input. -/
structure CallRecord where
  kind : ModelKind
  input : List CSMessage
deriving Repr, DecidableEq

/-- One `update_custom_field_value` write to the ticketing system. -/
structure JiraWrite where
  ticket : String
  field : String
  value : String
deriving Repr, DecidableEq

/-- Failure surfaces of a single-ticket run: the model oracle running dry
(models a raising Bedrock client), `json.loads` failing on the cleaned model
output, and a missing required extraction key (Python `KeyError`). -/
inductive CSError where
  | scriptExhausted
  | jsonParseError
  | missingKey : String → CSError
deriving Repr, DecidableEq

/-- External collaborators: an abstract JSON-object decoder (`json.loads`
restricted to one flat object) and the three SQLite lookups, each returning
`some` rendered records or `none` for an empty result set. -/
structure Env where
  parseJsonObj : String → Option (List (String × String))
  dbTransactions : String → Option String
  dbOrders : String → Option String
  dbRefunds : String → Option String

/-- The execution bundle threaded through the graph: workflow state, the
remaining model-response script, the log of model invocations made, and the
log of ticketing-system writes. -/
structure Exec where
  st : CSState
  script : List AIMsg
  calls : List CallRecord
  writes : List JiraWrite
deriving Repr, DecidableEq

/-- Jira custom field for the category
(`customfield_` ++ `JIRA_CATEGORY_FIELD_ID = 10049`). -/
def categoryFieldName : String := "customfield_10049"

/-- Jira custom field for the response
(`customfield_` ++ `JIRA_RESPONSE_FIELD_ID = 10047`). -/
def responseFieldName : String := "customfield_10047"

/-- `CustomerSupport.add_usage`: append exactly one usage record built from the
model, token counts and totalled latency of the finished invocation. -/
def addUsage (st : CSState) (m : AIMsg) : CSState :=
  { st with usage := st.usage ++
      [{ modelName := m.modelName, inputTokens := m.inputTokens,
         outputTokens := m.outputTokens, latency := latencyTotal m.latency }] }

/-- A model invocation: consume the next scripted response and log one call
record carrying the client kind and the exact input message list. -/
def invokeLLM (kind : ModelKind) (input : List CSMessage) (ex : Exec) :
    Option (AIMsg × Exec) :=
  match ex.script with
  | [] => none
  | m :: rest =>
      some (m, { ex with script := rest,
                         calls := ex.calls ++ [{ kind := kind, input := input }] })

/-! ### Prompts (f-string whitespace normalized; content as in the source) -/

/-- Prompt of `determine_ticket_category_tool`. -/
def categoryPrompt (summary description : String) : String :=
  "Task: Categorize the support ticket based on the provided details.\n" ++
  "Ticket Title: " ++ summary ++ "\nTicket Body: " ++ description ++
  "\nCategories:\nTransaction\nDelivery\nRefunds\nOther\n" ++
  "Respond with only the most appropriate category. Do not include any additional text.\n"

/-- Prompt of `extract_transaction_id_tool`. -/
def txnIdPrompt : String :=
  "Task: Extract and return the transaction ID in the following JSON format:\n" ++
  "\x7b\n\"transactionid\": \"<transaction_id>\"\n\x7d\n" ++
  "Output only the JSON object, with no additional text or formatting.\n"

/-- Prompt of `extract_order_number_tool`. -/
def orderNoPrompt : String :=
  "Task: Extract and return the order number in the following JSON format:\n" ++
  "\x7b\n\"orderno\": \"<order_no>\"\n\x7d\n" ++
  "Provide only the JSON object, without any additional text or formatting.\n"

/-- Prompt of `find_order_details_tool`. -/
def orderDetailsPrompt (summary description orderNo details : String) : String :=
  "Task: Respond to the question in the support ticket using the provided order details.\n" ++
  "Ticket Title: " ++ summary ++ "\nTicket Body: " ++ description ++
  "\nOrder number: " ++ orderNo ++ "\nOrder details: " ++ details ++
  "\nIf additional information is needed, use the available tools to gather it before responding.\n"

/-- Prompt of `assess_damaged_delivery` (damage-assessment instructions). -/
def assessPrompt : String :=
  "Input: Image 1: A picture of the product as listed on the website. " ++
  "Image 2: A picture of the product returned by the customer, who claims it is damaged.\n" ++
  "Task: Analyze the two images and answer the following questions:\n" ++
  "1. Product Verification: Do both images depict the same product? " ++
  "Compare key features such as: Model number, Color, Design, Logos, Patterns, Dimensions, " ++
  "and any other identifiable attributes. If the images do not represent the same product, " ++
  "request that the customer provide a clearer or additional picture of the returned product for verification.\n" ++
  "2. Damage Assessment: If the products are confirmed to be the same, does the returned product " ++
  "(Image 2) show any signs of damage? If yes, describe: Type of damage (e.g., scratches, dents, " ++
  "broken parts). Extent of damage.\n" ++
  "Guidelines for Analysis: Fraud Prevention Measures: Ensure accurate identification of " ++
  "similarities or differences between Image 1 and Image 2 to confirm if they represent the same " ++
  "product. Carefully assess Image 2 for visible signs of damage or tampering after verifying it " ++
  "matches Image 1. Use a systematic approach to evaluate both images side by side. " ++
  "Focus on details like unique characteristics or discrepancies.\n" ++
  "Additional Instructions: If it is determined that Image 2 does not match Image 1 " ++
  "(i.e., they are different products): Clearly state this in your response. Instruct that a " ++
  "clearer or additional image of the returned product be provided by the customer for further analysis.\n" ++
  "Output: Provide a clear and detailed response to each question.\n"

/-- Prompt of `generate_response_tool`. -/
def genPrompt (context : String) : String :=
  "Task: Generate a response to the customer\x27s query based on the provided context.\n" ++
  "Guidelines:\n- Address the response directly to the customer.\n" ++
  "- Ensure the response is concise and accurate.\n" ++
  "- If accurate information is unavailable, respond with: \"I am sorry, I do not have enough information to provide an accurate response.\"\n" ++
  "- Do not ask for additional information if you have enough data to prepare response\n" ++
  "Context: " ++ context ++ "\n"

/-- System prompt installed by `get_jira_ticket`. -/
def systemPrompt : String :=
  "You are a professional and courteous customer support agent for AnyCompany. " ++
  "Your goal is to assist users effectively and efficiently using the tools and information provided.\n" ++
  "Guidelines:\n1. Maintain a polite, helpful, and pleasant tone at all times.\n" ++
  "2. Avoid using strong or negative words. For example, replace words like \"frustrating\" " ++
  "with softer alternatives such as \"inconvenience.\"\n" ++
  "3. Respond to customer queries based strictly on factual information.\n" ++
  "4. If sufficient information is not available to address a query, respond with: " ++
  "\"I do not have enough information to answer this query.\"\n" ++
  "Your primary objective is to provide accurate, empathetic, and solution-oriented support " ++
  "while ensuring a positive customer experience.\n"

/-! ### Stage functions -/

/-- `CustomerSupport.determine_ticket_category_tool`. -/
def determine_ticket_category_tool (ex : Exec) : Exec × Option CSError :=
  let prompt := categoryPrompt ex.st.summary ex.st.description
  let st1 := { ex.st with messages := ex.st.messages ++ [.human [.text prompt]] }
  match invokeLLM .guardrails st1.messages { ex with st := st1 } with
  | none => ({ ex with st := st1 }, some .scriptExhausted)
  | some (m, ex2) =>
      let st2 := addUsage ex2.st m
      let st3 := { st2 with messages := st2.messages ++ [.ai m],
                            category := strip m.content }
      ({ ex2 with st := st3 }, none)

/-- `CustomerSupport.assign_ticket_category_in_jira_tool`: write the category
into its Jira custom field. -/
def assign_ticket_category_in_jira_tool (ex : Exec) : Exec × Option CSError :=
  ({ ex with writes := ex.writes ++
      [{ ticket := ex.st.key, field := categoryFieldName,
         value := ex.st.category }] }, none)

/-- `CustomerSupport.decide_ticket_flow_condition`: the conditional edge after
the category write-back. -/
def decide_ticket_flow_condition (st : CSState) : String :=
  if lower st.category == "transaction" then "Extract Transaction ID"
  else "Extract Order Number"

/-- `CustomerSupport.extract_transaction_id_tool`: with an image attachment the
vision client is invoked on ONLY the extraction prompt plus the first image
(not the accumulated conversation); otherwise the text client is invoked on
the full conversation.  The cleaned output must parse as JSON and contain the
`transactionid` key. -/
def extract_transaction_id_tool (env : Env) (ex : Exec) : Exec × Option CSError :=
  let prompt := txnIdPrompt
  let st1 := { ex.st with messages := ex.st.messages ++ [.human [.text prompt]] }
  let ex1 := { ex with st := st1 }
  let inv :=
    if st1.attachments.length > 0 then
      invokeLLM .vision [.human ([.text prompt] ++
        [.image (st1.attachments.headD "")])] ex1
    else
      invokeLLM .text st1.messages ex1
  match inv with
  | none => (ex1, some .scriptExhausted)
  | some (m, ex2) =>
      let st2 := addUsage ex2.st m
      let st3 := { st2 with messages := st2.messages ++ [.ai m] }
      let ex3 := { ex2 with st := st3 }
      match env.parseJsonObj (clean_json_string m.content) with
      | none => (ex3, some .jsonParseError)
      | some obj =>
          match List.find? (fun kv => kv.1 == "transactionid") obj with
          | none => (ex3, some (.missingKey "transactionid"))
          | some kv => ({ ex3 with st := { st3 with transactionId := kv.2 } }, none)

/-- `CustomerSupport.extract_order_number_tool`: unconditionally a text-only
invocation over the full conversation (no vision branch in the source).  The
cleaned output must parse as JSON and contain the `orderno` key. -/
def extract_order_number_tool (env : Env) (ex : Exec) : Exec × Option CSError :=
  let prompt := orderNoPrompt
  let st1 := { ex.st with messages := ex.st.messages ++ [.human [.text prompt]] }
  let ex1 := { ex with st := st1 }
  match invokeLLM .text st1.messages ex1 with
  | none => (ex1, some .scriptExhausted)
  | some (m, ex2) =>
      let st2 := addUsage ex2.st m
      let st3 := { st2 with messages := st2.messages ++ [.ai m] }
      let ex3 := { ex2 with st := st3 }
      match env.parseJsonObj (clean_json_string m.content) with
      | none => (ex3, some .jsonParseError)
      | some obj =>
          match List.find? (fun kv => kv.1 == "orderno") obj with
          | none => (ex3, some (.missingKey "orderno"))
          | some kv => ({ ex3 with st := { st3 with orderNo := kv.2 } }, none)

/-- `CustomerSupport.find_transaction_details_tool`: SQLite lookup, no model
invocation; an empty result set yields the not-found message. -/
def find_transaction_details_tool (env : Env) (ex : Exec) : Exec × Option CSError :=
  let resp := (env.dbTransactions ex.st.transactionId).getD
      ("No record found for Transaction ID: " ++ ex.st.transactionId)
  let resp2 := resp ++
      " \nIn case of transaction failures, customer\x27s account is not debited"
  ({ ex with st := { ex.st with response := resp2 } }, none)

/-- `CustomerSupport.find_order_details_tool`: SQLite lookup, then one
invocation of the tool-bound text client over the full conversation. -/
def find_order_details_tool (env : Env) (ex : Exec) : Exec × Option CSError :=
  let details := (env.dbOrders ex.st.orderNo).getD
      ("No records found for order number " ++ ex.st.orderNo)
  let prompt := orderDetailsPrompt ex.st.summary ex.st.description ex.st.orderNo details
  let st1 := { ex.st with messages := ex.st.messages ++ [.human [.text prompt]] }
  match invokeLLM .textWithTools st1.messages { ex with st := st1 } with
  | none => ({ ex with st := st1 }, some .scriptExhausted)
  | some (m, ex2) =>
      let st2 := addUsage ex2.st m
      let st3 := { st2 with messages := st2.messages ++ [.ai m],
                            response := m.content }
      ({ ex2 with st := st3 }, none)

/-- `tool_calls` of the last conversation message (empty when the last message
is not an `AIMessage`). -/
def lastMessageToolCalls (msgs : List CSMessage) : List ToolCall :=
  match msgs.getLast? with
  | some (.ai m) => m.toolCalls
  | _ => []

/-- `CustomerSupport.order_query_decision`: the conditional edge after
Find Order Details. -/
def order_query_decision (st : CSState) : String :=
  if (lastMessageToolCalls st.messages).length > 0 then "tools"
  else "Generate Response"

/-- `CustomerSupport.assess_damaged_delivery` (a ReAct tool): one vision
invocation over only the assessment prompt, the listed-product picture and the
customer picture (when an attachment exists); appends its usage record to the
per-ticket usage list (via the `self.state` reference captured at the
categorization stage). -/
def assess_damaged_delivery (ex : Exec) : (String × Exec) × Option CSError :=
  let humanBlocks :=
    [Block.text assessPrompt, Block.image "./data/listed-bottle.jpg"] ++
    (match ex.st.attachments with
     | [] => []
     | f :: _ => [Block.image f])
  match invokeLLM .vision [.human humanBlocks] ex with
  | none => (("", ex), some .scriptExhausted)
  | some (m, ex2) =>
      ((m.content, { ex2 with st := addUsage ex2.st m }), none)

/-- `CustomerSupport.find_refund_status` (a ReAct tool): SQLite lookup only,
no model invocation. -/
def find_refund_status (env : Env) (orderNo : String) : String :=
  (env.dbRefunds orderNo).getD ("No refund record found for order no: " ++ orderNo)

/-- One tool call dispatched by the LangGraph `ToolNode`: run the named tool
and append a `ToolMessage` carrying its string result. -/
def runToolCall (env : Env) (tc : ToolCall) (ex : Exec) : Exec × Option CSError :=
  if tc.name == "assess_damaged_delivery" then
    match assess_damaged_delivery ex with
    | ((content, ex2), none) =>
        ({ ex2 with st := { ex2.st with messages :=
            ex2.st.messages ++ [.toolMsg content tc.callId] } }, none)
    | ((_, ex2), some e) => (ex2, some e)
  else if tc.name == "find_refund_status" then
    let content := find_refund_status env tc.orderNo
    ({ ex with st := { ex.st with messages :=
        ex.st.messages ++ [.toolMsg content tc.callId] } }, none)
  else
    ({ ex with st := { ex.st with messages := ex.st.messages ++
        [.toolMsg ("Error: " ++ tc.name ++ " is not a valid tool.") tc.callId] } },
     none)

/-- Sequential execution of the tool calls of one AI message. -/
def runToolCalls (env : Env) : List ToolCall → Exec → Exec × Option CSError
  | [], ex => (ex, none)
  | tc :: rest, ex =>
      match runToolCall env tc ex with
      | (ex2, some e) => (ex2, some e)
      | (ex2, none) => runToolCalls env rest ex2

/-- The `tools` node (`ToolNode([...])`). -/
def tools_node (env : Env) (ex : Exec) : Exec × Option CSError :=
  runToolCalls env (lastMessageToolCalls ex.st.messages) ex

/-- The synthetic `AIMessage(content=response)` of the tool-result collapse. -/
def plainAI (content : String) : AIMsg :=
  { content := content, modelName := "", inputTokens := 0, outputTokens := 0,
    latency := .single 0, toolCalls := [] }

/-- `CustomerSupport.generate_response_tool`: when the last message is a
`ToolMessage`, collapse the trailing triad (`messages[:-3]`) into one plain
assistant message carrying the tool output, then one guardrails invocation
over the full conversation. -/
def generate_response_tool (ex : Exec) : Exec × Option CSError :=
  let st0 := ex.st
  let pair : String × CSState :=
    match st0.messages.getLast? with
    | some (.toolMsg c _) =>
        (c, { st0 with messages :=
            (List.take (st0.messages.length - 3) st0.messages) ++ [.ai (plainAI c)] })
    | _ => (st0.response, st0)
  let prompt := genPrompt pair.1
  let st2 := { pair.2 with messages := pair.2.messages ++ [.human [.text prompt]] }
  match invokeLLM .guardrails st2.messages { ex with st := st2 } with
  | none => ({ ex with st := st2 }, some .scriptExhausted)
  | some (m, ex2) =>
      let st3 := addUsage ex2.st m
      ({ ex2 with st := { st3 with messages := st3.messages ++ [.ai m],
                                   response := m.content } }, none)

/-- `CustomerSupport.update_response_in_jira_tool`: write the response into
its Jira custom field. -/
def update_response_in_jira_tool (ex : Exec) : Exec × Option CSError :=
  ({ ex with writes := ex.writes ++
      [{ ticket := ex.st.key, field := responseFieldName,
         value := ex.st.response }] }, none)

/-! ### The workflow graph -/

/-- The nodes declared by `CustomerSupport.build_graph`. -/
inductive Node where
  | determineCategory
  | assignCategory
  | extractTxn
  | extractOrder
  | findTxn
  | findOrder
  | toolsNode
  | genResponse
  | updateJira
  | endNode
deriving Repr, DecidableEq

/-- A rank strictly decreasing along every edge of the (acyclic) graph. -/
def rank : Node → Nat
  | .endNode => 0
  | .updateJira => 1
  | .genResponse => 2
  | .toolsNode => 3
  | .findTxn => 3
  | .findOrder => 4
  | .extractTxn => 4
  | .extractOrder => 5
  | .assignCategory => 6
  | .determineCategory => 7

/-- The graph is acyclic, so its execution is embedded as one plain function
per node, each chaining into its successors (the unrolled DAG of
`build_graph`); `run` below dispatches on the start node.  Each function
returns the visited nodes in order, the final execution bundle, and the error
of the failing stage if any (a raising stage aborts the whole ticket: nothing
downstream runs). -/
def runEnd (ex : Exec) : List Node × Exec × Option CSError :=
  ([.endNode], ex, none)

/-- `Update Response in JIRA` then END. -/
def runUpdateJira (ex : Exec) : List Node × Exec × Option CSError :=
  match update_response_in_jira_tool ex with
  | (ex2, some e) => ([.updateJira], ex2, some e)
  | (ex2, none) =>
      let r := runEnd ex2
      (.updateJira :: r.1, r.2)

/-- `Generate Response` then the response write-back. -/
def runGenResponse (ex : Exec) : List Node × Exec × Option CSError :=
  match generate_response_tool ex with
  | (ex2, some e) => ([.genResponse], ex2, some e)
  | (ex2, none) =>
      let r := runUpdateJira ex2
      (.genResponse :: r.1, r.2)

/-- The `tools` node then response generation. -/
def runToolsNode (env : Env) (ex : Exec) : List Node × Exec × Option CSError :=
  match tools_node env ex with
  | (ex2, some e) => ([.toolsNode], ex2, some e)
  | (ex2, none) =>
      let r := runGenResponse ex2
      (.toolsNode :: r.1, r.2)

/-- `Find Transaction Details` then response generation. -/
def runFindTxn (env : Env) (ex : Exec) : List Node × Exec × Option CSError :=
  match find_transaction_details_tool env ex with
  | (ex2, some e) => ([.findTxn], ex2, some e)
  | (ex2, none) =>
      let r := runGenResponse ex2
      (.findTxn :: r.1, r.2)

/-- `Find Order Details` then the ReAct tool decision. -/
def runFindOrder (env : Env) (ex : Exec) : List Node × Exec × Option CSError :=
  match find_order_details_tool env ex with
  | (ex2, some e) => ([.findOrder], ex2, some e)
  | (ex2, none) =>
      if order_query_decision ex2.st == "tools" then
        let r := runToolsNode env ex2
        (.findOrder :: r.1, r.2)
      else
        let r := runGenResponse ex2
        (.findOrder :: r.1, r.2)

/-- `Extract Transaction ID` then the transaction lookup. -/
def runExtractTxn (env : Env) (ex : Exec) : List Node × Exec × Option CSError :=
  match extract_transaction_id_tool env ex with
  | (ex2, some e) => ([.extractTxn], ex2, some e)
  | (ex2, none) =>
      let r := runFindTxn env ex2
      (.extractTxn :: r.1, r.2)

/-- `Extract Order Number` then the order lookup. -/
def runExtractOrder (env : Env) (ex : Exec) : List Node × Exec × Option CSError :=
  match extract_order_number_tool env ex with
  | (ex2, some e) => ([.extractOrder], ex2, some e)
  | (ex2, none) =>
      let r := runFindOrder env ex2
      (.extractOrder :: r.1, r.2)

/-- `Assign Ticket Category in JIRA` then the category routing predicate. -/
def runAssign (env : Env) (ex : Exec) : List Node × Exec × Option CSError :=
  match assign_ticket_category_in_jira_tool ex with
  | (ex2, some e) => ([.assignCategory], ex2, some e)
  | (ex2, none) =>
      if decide_ticket_flow_condition ex2.st == "Extract Transaction ID" then
        let r := runExtractTxn env ex2
        (.assignCategory :: r.1, r.2)
      else
        let r := runExtractOrder env ex2
        (.assignCategory :: r.1, r.2)

/-- `Determine Ticket Category` then the category write-back. -/
def runDetermine (env : Env) (ex : Exec) : List Node × Exec × Option CSError :=
  match determine_ticket_category_tool ex with
  | (ex2, some e) => ([.determineCategory], ex2, some e)
  | (ex2, none) =>
      let r := runAssign env ex2
      (.determineCategory :: r.1, r.2)

/-- Graph execution from any node (dispatcher over the unrolled DAG). -/
def run (env : Env) : Node → Exec → List Node × Exec × Option CSError
  | .endNode, ex => runEnd ex
  | .updateJira, ex => runUpdateJira ex
  | .genResponse, ex => runGenResponse ex
  | .toolsNode, ex => runToolsNode env ex
  | .findTxn, ex => runFindTxn env ex
  | .findOrder, ex => runFindOrder env ex
  | .extractTxn, ex => runExtractTxn env ex
  | .extractOrder, ex => runExtractOrder env ex
  | .assignCategory, ex => runAssign env ex
  | .determineCategory, ex => runDetermine env ex

/-- `CustomerSupport.get_jira_ticket`: the initial workflow state (usage list
empty, conversation holding only the system prompt). -/
def initialState (key summary description : String)
    (attachments : List String) : CSState :=
  { key := key, summary := summary, description := description,
    attachments := attachments, category := "", response := "",
    transactionId := "", orderNo := "",
    usage := [], messages := [.system systemPrompt] }

/-- Single-ticket entry point: build the initial state and drive the graph
from its entry node. -/
def processTicket (env : Env) (script : List AIMsg) (key summary description : String)
    (attachments : List String) : List Node × Exec × Option CSError :=
  run env .determineCategory
    { st := initialState key summary description attachments,
      script := script, calls := [], writes := [] }

/-- Static over-approximation of the nodes reachable from a node (the node
itself included), read off the edges of `build_graph`. -/
def reachable : Node → List Node
  | .endNode => [.endNode]
  | .updateJira => [.updateJira, .endNode]
  | .genResponse => [.genResponse, .updateJira, .endNode]
  | .toolsNode => [.toolsNode, .genResponse, .updateJira, .endNode]
  | .findTxn => [.findTxn, .genResponse, .updateJira, .endNode]
  | .findOrder => [.findOrder, .toolsNode, .genResponse, .updateJira, .endNode]
  | .extractTxn => [.extractTxn, .findTxn, .genResponse, .updateJira, .endNode]
  | .extractOrder =>
      [.extractOrder, .findOrder, .toolsNode, .genResponse, .updateJira, .endNode]
  | .assignCategory =>
      [.assignCategory, .extractTxn, .findTxn, .extractOrder, .findOrder,
       .toolsNode, .genResponse, .updateJira, .endNode]
  | .determineCategory =>
      [.determineCategory, .assignCategory, .extractTxn, .findTxn, .extractOrder,
       .findOrder, .toolsNode, .genResponse, .updateJira, .endNode]

/-- No write in the list targets the response custom field. -/
def noResponseWrite (ws : List JiraWrite) : Prop :=
  ∀ w ∈ ws, w.field ≠ responseFieldName

/-! ### Concrete demo data for witnesses and counterexamples -/

/-- A demo environment: the JSON decoder recognizes the two extraction
objects, the order store knows order `O-1`, the other stores are empty. -/
def csEnvDemo : Env :=
  { parseJsonObj := fun s =>
      if s == "\x7b\"orderno\": \"O-1\"\x7d" then some [("orderno", "O-1")]
      else if s == "\x7b\"transactionid\": \"T-9\"\x7d" then
        some [("transactionid", "T-9")]
      else if s == "\x7b\"wrong\": \"x\"\x7d" then some [("wrong", "x")]
      else none,
    dbTransactions := fun _ => none,
    dbOrders := fun o => if o == "O-1" then some "shipped on 2024-01-02" else none,
    dbRefunds := fun _ => none }

/-- Scripted categorization answer. -/
def aiCat : AIMsg :=
  { content := "Delivery", modelName := "mistral-large", inputTokens := 100,
    outputTokens := 2, latency := .single 50, toolCalls := [] }

/-- Scripted order-number extraction answer (fenced JSON, per-retry latency
samples exercising the summation path of `add_usage`). -/
def aiOrder : AIMsg :=
  { content := "```json\n\x7b\"orderno\": \"O-1\"\x7d\n```",
    modelName := "mistral-large", inputTokens := 120, outputTokens := 12,
    latency := .multi [10, 20], toolCalls := [] }

/-- Scripted order-details answer requesting the damage-assessment tool. -/
def aiDetails : AIMsg :=
  { content := "Let me check the pictures.", modelName := "mistral-large",
    inputTokens := 150, outputTokens := 9, latency := .single 70,
    toolCalls := [{ callId := "c1", name := "assess_damaged_delivery",
                    orderNo := "O-1" }] }

/-- Scripted vision answer of the damage assessment. -/
def aiAssess : AIMsg :=
  { content := "Both pictures show the same bottle; the returned one is dented.",
    modelName := "pixtral-large", inputTokens := 900, outputTokens := 30,
    latency := .single 300, toolCalls := [] }

/-- Scripted final customer-facing answer. -/
def aiGen : AIMsg :=
  { content := "We are sorry about the dented bottle; a replacement is on its way.",
    modelName := "mistral-large", inputTokens := 200, outputTokens := 25,
    latency := .single 90, toolCalls := [] }

/-- Scripted transaction-id extraction answer. -/
def aiTxn : AIMsg :=
  { content := "\x7b\"transactionid\": \"T-9\"\x7d", modelName := "mistral-large",
    inputTokens := 110, outputTokens := 10, latency := .single 40,
    toolCalls := [] }

/-- Scripted extraction answer that parses but misses the required key. -/
def aiBadExtract : AIMsg :=
  { content := "\x7b\"wrong\": \"x\"\x7d", modelName := "mistral-large",
    inputTokens := 110, outputTokens := 10, latency := .single 40,
    toolCalls := [] }

/-- Scripted categorization answer classifying as Transaction. -/
def aiCatTxn : AIMsg :=
  { content := "Transaction", modelName := "mistral-large", inputTokens := 95,
    outputTokens := 2, latency := .single 45, toolCalls := [] }

/-- A full delivery-ticket execution: five model invocations, one of them made
from inside the damage-assessment tool run by the tools node. -/
def csExecDemo : Exec :=
  { st := initialState "AS-1" "Order missing" "Order O-1 arrived damaged"
      ["./data/temp/AS-1-photo.png"],
    script := [aiCat, aiOrder, aiDetails, aiAssess, aiGen],
    calls := [], writes := [] }

/-- A transaction ticket whose extraction answer misses `transactionid`:
the category write-back has already happened when the stage fails. -/
def csExecBad : Exec :=
  { st := initialState "AS-2" "Double charge" "Charged twice for T-9" [],
    script := [aiCatTxn, aiBadExtract],
    calls := [], writes := [] }

/-- An execution positioned at the routing point with a Transaction category. -/
def csExecRouteTxn : Exec :=
  { st := { initialState "AS-3" "Double charge" "Charged twice for T-9" [] with
            category := "Transaction" },
    script := [aiTxn, aiGen],
    calls := [], writes := [] }

/-- An execution positioned at the routing point with a Refunds category. -/
def csExecRouteRefunds : Exec :=
  { st := { initialState "AS-4" "Refund pending" "Where is my refund for O-1" [] with
            category := "Refunds" },
    script := [aiOrder, aiCat, aiGen],
    calls := [], writes := [] }

/-- An execution with an image attachment reaching order-number extraction
(category `Refunds`), with earlier conversation history present. -/
def csExecOrderImage : Exec :=
  { st := { initialState "AS-5" "Broken item" "Order O-1 arrived broken"
              ["./data/temp/AS-5-photo.png"] with category := "Refunds" },
    script := [aiOrder],
    calls := [], writes := [] }

/-- The same ticket but without any attachment, reaching transaction-id
extraction. -/
def csExecTxnNoImage : Exec :=
  { st := { initialState "AS-6" "Double charge" "Charged twice for T-9" [] with
            category := "Transaction" },
    script := [aiTxn],
    calls := [], writes := [] }

/-- A transaction ticket with an image attachment, for the vision branch of
transaction-id extraction. -/
def csExecTxnImage : Exec :=
  { st := { initialState "AS-7" "Double charge" "See attached screenshot"
              ["./data/temp/AS-7-shot.png"] with category := "Transaction" },
    script := [aiTxn],
    calls := [], writes := [] }

end CS

/-! ## Theorems: the MCP agent (tool registry and reasoning loop) -/

namespace MCP

/-- The continuation prompt of the `max_tokens` branch contains no image URL,
so `invoke_with_prompt(\x27Please continue.\x27)` takes the text-only path. -/
theorem isImageUrl_continue : isImageUrl "Please continue." = false := by decide

/-- Unfolding of the loop at a `max_tokens` response with a continuation
available in the script. -/
theorem handleScript_max_tokens (reg : Registry) (tags : List String)
    (msgs : List Message) (rmsg : Message) (r' : ModelResponse)
    (rest' : List ModelResponse) :
    handleScript reg tags msgs { stopReason := "max_tokens", message := rmsg }
      (r' :: rest') =
      (let inner := handleScript reg tags
          (msgs ++ [userMsg [AContent.text "Please continue."], r'.message]) r' rest'
       match inner.result with
       | .error e => { inner with result := .error e, calls := inner.calls + 1 }
       | .ok _ => { inner with result := .ok none, calls := inner.calls + 1 }) := by
  conv_lhs => rw [handleScript]
  simp only [String.reduceBEq, Bool.or_self, Bool.false_or, Bool.or_false,
    Bool.false_eq_true, reduceIte]

/-- Unfolding of the loop at a `tool_use` response. -/
theorem handleScript_tool_use (reg : Registry) (tags : List String)
    (msgs : List Message) (rmsg : Message) (rest : List ModelResponse) :
    handleScript reg tags msgs { stopReason := "tool_use", message := rmsg } rest =
      (match execAll reg (toolUses rmsg.content) with
       | .error e =>
           { result := .error ("Failed to execute tool: " ++ e), calls := 0,
             msgs := msgs }
       | .ok trs =>
           match rest with
           | [] =>
               { result := .error noResponseError, calls := 0,
                 msgs := msgs ++ [userMsg (trs.map AContent.toolResult)] }
           | r' :: rest' =>
               let out := handleScript reg tags
                 (msgs ++ [userMsg (trs.map AContent.toolResult), r'.message]) r' rest'
               { out with calls := out.calls + 1 }) := by
  cases rest with
  | nil =>
      rw [handleScript.eq_1]
      simp only [String.reduceBEq, Bool.or_self, Bool.false_or, Bool.or_false,
        Bool.false_eq_true, reduceIte]
  | cons r' rest' =>
      rw [handleScript.eq_2]
      simp only [String.reduceBEq, Bool.or_self, Bool.false_or, Bool.or_false,
        Bool.false_eq_true, reduceIte]

/-- Claim C1, counterexample.  Invoking a tool call for an unregistered name
does NOT produce a tool-result message with `status=error`: `execute_tool`
raises `ValueError` before reaching its try/except block, `_handle_response`
re-raises it as `Failed to execute tool: ...`, and the final conversation
contains a tool-use block with no matching tool-result. -/
theorem C1_counterexample :
    executeTool [] unknownReq = .error "Unknown tool get_time not found" ∧
    (invokeScript [] [] [] [AContent.text "hi"] [unknownToolResp]).result =
      .error "Failed to execute tool: Unknown tool get_time not found" ∧
    countToolUseBlocks (invokeScript [] [] [] [AContent.text "hi"] [unknownToolResp]).msgs = 1 ∧
    countToolResultBlocks (invokeScript [] [] [] [AContent.text "hi"] [unknownToolResp]).msgs = 0 := by
  refine ⟨rfl, ?_, ?_, ?_⟩ <;> rfl

/-- Claim C1 (amended): for every tool-call request whose name is not
registered, `execute_tool` raises `ValueError("Unknown tool ... not found")`
(the check precedes the try/except, so no error tool-result is built), and the
reasoning loop re-raises it as `ValueError("Failed to execute tool: ...")`
without making any further model invocation; the tool-use therefore has no
matching tool-result and the failure propagates to the caller. -/
theorem C1_unknown_tool_raises (reg : Registry) (tags : List String)
    (msgs : List Message) (rest : List ModelResponse)
    (payload : ToolRequest) (rmsg : Message)
    (hname : List.find? (fun kv => kv.1 == payload.name) reg = none)
    (huses : toolUses rmsg.content = [payload]) :
    executeTool reg payload =
      .error ("Unknown tool " ++ payload.name ++ " not found") ∧
    handleScript reg tags msgs { stopReason := "tool_use", message := rmsg } rest =
      { result := .error ("Failed to execute tool: " ++
          ("Unknown tool " ++ payload.name ++ " not found")),
        calls := 0, msgs := msgs } := by
  have h1 : executeTool reg payload =
      .error ("Unknown tool " ++ payload.name ++ " not found") := by
    unfold executeTool
    rw [hname]
  refine ⟨h1, ?_⟩
  rw [handleScript_tool_use]
  simp only [huses, execAll, h1]

/-- Claim C1, witness for the amended theorem at a concrete unregistered
request. -/
theorem C1_witness :
    executeTool [] unknownReq = .error "Unknown tool get_time not found" ∧
    handleScript [] [] [] unknownToolResp [] =
      { result := .error "Failed to execute tool: Unknown tool get_time not found",
        calls := 0, msgs := [] } :=
  C1_unknown_tool_raises [] [] [] [] unknownReq unknownToolResp.message rfl rfl

/-- Claim C3: when the model reports the `max_tokens` stop condition, the loop
re-invokes itself with the fixed continuation prompt `Please continue.` and
discards the inner return value: whatever value `v` the continuation produces,
the original call returns `None` (and the continuation really ran: one more
model invocation than the inner call made). -/
theorem C3_truncation_returns_none (reg : Registry) (tags : List String)
    (msgs : List Message) (rmsg : Message) (r' : ModelResponse)
    (rest' : List ModelResponse) (v : Option String)
    (hinner : (handleScript reg tags
        (msgs ++ [userMsg [AContent.text "Please continue."], r'.message]) r' rest').result
      = .ok v) :
    (handleScript reg tags msgs { stopReason := "max_tokens", message := rmsg }
        (r' :: rest')).result = .ok none ∧
    (handleScript reg tags msgs { stopReason := "max_tokens", message := rmsg }
        (r' :: rest')).calls =
      (handleScript reg tags
        (msgs ++ [userMsg [AContent.text "Please continue."], r'.message]) r' rest').calls
        + 1 := by
  constructor
  · rw [handleScript_max_tokens]
    simp only [hinner]
  · rw [handleScript_max_tokens]
    simp only [hinner]

/-- Claim C3, witness: a truncated response followed by a completion whose
answer is `world`; the inner call returns `some "world"`, the outer call
returns `none`. -/
theorem C3_witness :
    (handleScript [] [] [] maxTokensResp [endTurnResp]).result = .ok none ∧
    (handleScript [] [] [] maxTokensResp [endTurnResp]).calls =
      (handleScript [] []
        ([] ++ [userMsg [AContent.text "Please continue."], endTurnResp.message])
        endTurnResp []).calls + 1 :=
  C3_truncation_returns_none [] [] [] maxTokensResp.message endTurnResp []
    (some "world") rfl

/-- Claim C7, counterexample.  For a registered tool whose implementation
returns the structured envelope `\x7b"result": ..., "tool_info": ...\x7d`, the
success tool-result does not carry the returned value stringified: it carries
only the stringified inner `result` entry. -/
theorem C7_counterexample :
    executeTool demoRegistry
        { toolUseId := "tw", name := "get_weather", input := .vDict [] } =
      .ok { toolUseId := "tw", content := [{ text := "sunny" }],
            status := "success" } ∧
    pyStr weatherReturn ≠ "sunny" := by
  exact ⟨rfl, by decide⟩

/-- Claim C7 (amended): for every registered tool, a returning implementation
yields a `success` tool-result whose single text block is the stringified
result after unwrapping the `\x7bresult, tool_info\x7d` envelope when present
(`str(result_data)` itself in the legacy format), and a raising implementation
yields an `error` tool-result whose text carries the exception message behind
the `Error executing tool: ` prefix; both re-use the request toolUseId. -/
theorem C7_tool_result_shape (reg : Registry) (payload : ToolRequest)
    (nm : String) (entry : ToolEntry)
    (hfind : List.find? (fun kv => kv.1 == payload.name) reg = some (nm, entry)) :
    (∀ v, entry.func entry.originalName payload.input = .ok v →
        executeTool reg payload = .ok
          { toolUseId := payload.toolUseId,
            content := [{ text := pyStr (extractResult v) }],
            status := "success" }) ∧
    (∀ e, entry.func entry.originalName payload.input = .error e →
        executeTool reg payload = .ok
          { toolUseId := payload.toolUseId,
            content := [{ text := "Error executing tool: " ++ e }],
            status := "error" }) := by
  constructor
  · intro v hv
    unfold executeTool
    rw [hfind]
    simp only [hv]
  · intro e he
    unfold executeTool
    rw [hfind]
    simp only [he]

/-- Claim C7, witness: the demo registry exercises both branches — the weather
tool succeeds with the unwrapped stringified result, the broken tool's raised
exception becomes an `error` tool-result under the same toolUseId. -/
theorem C7_witness :
    executeTool demoRegistry
        { toolUseId := "tw", name := "get_weather", input := .vDict [] } =
      .ok { toolUseId := "tw",
            content := [{ text := pyStr (extractResult weatherReturn) }],
            status := "success" } ∧
    executeTool demoRegistry
        { toolUseId := "tb", name := "broken_tool", input := .vDict [] } =
      .ok { toolUseId := "tb",
            content := [{ text := "Error executing tool: boom" }],
            status := "error" } :=
  ⟨(C7_tool_result_shape demoRegistry
      { toolUseId := "tw", name := "get_weather", input := .vDict [] }
      "get_weather"
      { func := weatherFunc, description := "Get the weather",
        inputSchema := .vDict [], originalName := "get-weather" } rfl).1
      weatherReturn rfl,
   (C7_tool_result_shape demoRegistry
      { toolUseId := "tb", name := "broken_tool", input := .vDict [] }
      "broken_tool"
      { func := brokenFunc, description := "Always fails",
        inputSchema := .vDict [], originalName := "broken-tool" } rfl).2
      "boom" rfl⟩

/-- Claim C8: a stop condition other than `end_turn`, `stop_sequence`,
`tool_use` and `max_tokens` makes the call fail with
`Unknown stop reason: <raw reason>` and the loop does not recurse: no further
model invocation is counted and the conversation is left as it stood. -/
theorem C8_unknown_stop_reason (reg : Registry) (tags : List String)
    (msgs : List Message) (r : ModelResponse) (rest : List ModelResponse)
    (h1 : r.stopReason ≠ "end_turn") (h2 : r.stopReason ≠ "stop_sequence")
    (h3 : r.stopReason ≠ "tool_use") (h4 : r.stopReason ≠ "max_tokens") :
    handleScript reg tags msgs r rest =
      { result := .error ("Unknown stop reason: " ++ r.stopReason),
        calls := 0, msgs := msgs } := by
  cases rest with
  | nil =>
      rw [handleScript.eq_1]
      simp [beq_iff_eq, h1, h2, h3, h4]
  | cons r' rest' =>
      rw [handleScript.eq_2]
      simp [beq_iff_eq, h1, h2, h3, h4]

/-- Claim C8, witness at the concrete stop reason `guardrail_intervened`. -/
theorem C8_witness :
    handleScript [] [] []
      { stopReason := "guardrail_intervened",
        message := { role := "assistant", content := [] } } [] =
      { result := .error "Unknown stop reason: guardrail_intervened",
        calls := 0, msgs := [] } :=
  C8_unknown_stop_reason [] [] []
    { stopReason := "guardrail_intervened",
      message := { role := "assistant", content := [] } } []
    (by decide) (by decide) (by decide) (by decide)

/-- Claim C10: on natural completion (`end_turn` or `stop_sequence`), with the
repository's tag configuration (`response_output_tags = []`), an output
message with an empty content list (IndexError, caught) and one whose first
block has no text entry (`.get` default) both make the loop return `''`
instead of raising. -/
theorem C10_empty_answer (reg : Registry) (msgs : List Message)
    (rest : List ModelResponse) (sr : String)
    (hsr : sr = "end_turn" ∨ sr = "stop_sequence")
    (id nm : String) (inp : Value) (items : List AContent) :
    (handleScript reg [] msgs
        { stopReason := sr, message := { role := "assistant", content := [] } }
        rest).result = .ok (some "") ∧
    (handleScript reg [] msgs
        { stopReason := sr,
          message := { role := "assistant",
                       content := .toolUse id nm inp :: items } }
        rest).result = .ok (some "") := by
  rcases hsr with h | h <;> subst h <;>
    cases rest with
    | nil =>
        constructor <;>
          · rw [handleScript.eq_1]
            simp [firstText, applyTags]
    | cons r' rest' =>
        constructor <;>
          · rw [handleScript.eq_2]
            simp [firstText, applyTags]

/-- Claim C10, witness at a concrete empty-content completion and a concrete
completion whose first block is a tool-use block. -/
theorem C10_witness :
    (handleScript [] [] []
        { stopReason := "end_turn",
          message := { role := "assistant", content := [] } } []).result
      = .ok (some "") ∧
    (handleScript [] [] []
        { stopReason := "end_turn",
          message := { role := "assistant",
                       content := [.toolUse "t1" "get_time" (.vDict [])] } }
        []).result = .ok (some "") :=
  C10_empty_answer [] [] [] "end_turn" (Or.inl rfl) "t1" "get_time" (.vDict []) []

end MCP

/-! ## Theorems: the Customer-Support workflow -/

namespace CS

/-- `splitFirst` returns `none` exactly when the pattern does not occur. -/
theorem splitFirst_eq_none_iff (pat : List Char) :
    ∀ s, splitFirst pat s = none ↔ containsPat pat s = false := by
  intro s
  induction s with
  | nil =>
      cases h : pat.isPrefixOf ([] : List Char) <;>
        simp [splitFirst, containsPat, h]
  | cons c cs ih =>
      cases h : pat.isPrefixOf (c :: cs) <;>
        simp [splitFirst, containsPat, h, Option.map_eq_none', ih]

/-- `splitFirst` at an occurrence sitting at the very front of the string. -/
theorem splitFirst_self_append (pat rest : List Char) :
    splitFirst pat (pat ++ rest) = some ([], rest) := by
  cases pat with
  | nil => cases rest <;> simp [splitFirst]
  | cons p ps =>
      have hpre : (p :: ps).isPrefixOf (p :: (ps ++ rest)) = true :=
        List.isPrefixOf_iff_prefix.mpr ⟨rest, by simp⟩
      show splitFirst (p :: ps) (p :: (ps ++ rest)) = some ([], rest)
      simp only [splitFirst, hpre, if_true, List.length_cons, List.drop_succ_cons,
        List.drop_left]

/-- `splitFirst` finds exactly the first occurrence: if the pattern occurs
nowhere strictly inside `pre`, splitting at the shown occurrence is what the
function returns. -/
theorem splitFirst_first_occ (pat : List Char) :
    ∀ (pre rest : List Char),
      (∀ i, i < pre.length →
        pat.isPrefixOf (List.drop i (pre ++ (pat ++ rest))) = false) →
      splitFirst pat (pre ++ (pat ++ rest)) = some (pre, rest) := by
  intro pre
  induction pre with
  | nil => intro rest _; exact splitFirst_self_append pat rest
  | cons c pre' ih =>
      intro rest h
      have h0 : pat.isPrefixOf (c :: (pre' ++ (pat ++ rest))) = false := by
        have h0' := h 0 (Nat.succ_pos _)
        simpa using h0'
      have h' : ∀ i, i < pre'.length →
          pat.isPrefixOf (List.drop i (pre' ++ (pat ++ rest))) = false := by
        intro i hi
        have hx := h (i + 1) (Nat.succ_lt_succ hi)
        simpa using hx
      show splitFirst pat (c :: (pre' ++ (pat ++ rest))) = some (c :: pre', rest)
      simp only [splitFirst, h0, Bool.false_eq_true, if_false]
      rw [ih rest h']
      rfl

/-- Claim C4, counterexample.  The parser only recognizes the `json` language
tag: a `python`-tagged fenced block is present, yet the function returns the
whole trimmed text (fences included), not the trimmed inner content. -/
theorem C4_counterexample :
    clean_json_string "```python\nx\n```" = "```python\nx\n```" ∧
    clean_json_string "```python\nx\n```" ≠ "x" := by
  exact ⟨rfl, by decide⟩

/-- Claim C4 (amended): for every input string the parser returns the trimmed
inner content of the first ```` ```json ````-tagged fenced block when one is
present and closed (first opening fence, first closing fence after it), and
otherwise the trimmed original text — both when no opening fence occurs at
all and when an opening fence is never closed (the malformed-fencing
fall-through); it never fails (it is a total function by construction).  In
particular the fenced and the bare extraction answers of the round-trip test
clean to the same JSON text. -/
theorem C4_json_fence_extraction (s : String)
    (pre inner post pre2 rest2 : List Char)
    (hnf : containsPat fenceOpen s.data = false)
    (hpre : ∀ i, i < pre.length →
      fenceOpen.isPrefixOf
        (List.drop i (pre ++ (fenceOpen ++ (inner ++ (fenceClose ++ post))))) = false)
    (hinner : ∀ j, j < inner.length →
      fenceClose.isPrefixOf (List.drop j (inner ++ (fenceClose ++ post))) = false)
    (hpre2 : ∀ i, i < pre2.length →
      fenceOpen.isPrefixOf (List.drop i (pre2 ++ (fenceOpen ++ rest2))) = false)
    (hnoclose : containsPat fenceClose rest2 = false) :
    clean_json_string s = strip s ∧
    cleanJsonL (pre ++ (fenceOpen ++ (inner ++ (fenceClose ++ post)))) = trimL inner ∧
    cleanJsonL (pre2 ++ (fenceOpen ++ rest2)) =
      trimL (pre2 ++ (fenceOpen ++ rest2)) ∧
    clean_json_string "```json\n\x7b\"orderno\": \"O-1\"\x7d\n```" =
      "\x7b\"orderno\": \"O-1\"\x7d" ∧
    clean_json_string "\x7b\"orderno\": \"O-1\"\x7d" = "\x7b\"orderno\": \"O-1\"\x7d" := by
  refine ⟨?_, ?_, ?_, rfl, rfl⟩
  · have h1 : splitFirst fenceOpen s.data = none :=
      (splitFirst_eq_none_iff fenceOpen s.data).mpr hnf
    unfold clean_json_string strip cleanJsonL
    rw [h1]
  · have h1 := splitFirst_first_occ fenceOpen pre (inner ++ (fenceClose ++ post)) hpre
    have h2 := splitFirst_first_occ fenceClose inner post hinner
    unfold cleanJsonL
    rw [h1]
    simp only [h2]
  · have h1 := splitFirst_first_occ fenceOpen pre2 rest2 hpre2
    have h2 : splitFirst fenceClose rest2 = none :=
      (splitFirst_eq_none_iff fenceClose rest2).mpr hnoclose
    unfold cleanJsonL
    rw [h1]
    simp only [h2]

/-- Claim C4, witness: a fence-free string cleans to its stripped self, a
concrete closed fence cleans to the trimmed inner content, and a concrete
unclosed fence falls through to the trimmed original text. -/
theorem C4_witness :
    clean_json_string "no fences here" = strip "no fences here" ∧
    cleanJsonL ("Result: ".data ++ (fenceOpen ++
        (" \x7b\"a\": 1\x7d ".data ++ (fenceClose ++ " done".data)))) =
      trimL " \x7b\"a\": 1\x7d ".data ∧
    cleanJsonL ("oops ".data ++ (fenceOpen ++ " \x7b\"a\": 1".data)) =
      trimL ("oops ".data ++ (fenceOpen ++ " \x7b\"a\": 1".data)) :=
  ⟨(C4_json_fence_extraction "no fences here" [] [] [] [] [] (by decide)
      (by decide) (by decide) (by decide) (by decide)).1,
   (C4_json_fence_extraction "" "Result: ".data " \x7b\"a\": 1\x7d ".data
      " done".data [] [] (by decide) (by decide) (by decide) (by decide)
      (by decide)).2.1,
   (C4_json_fence_extraction "" [] [] [] "oops ".data " \x7b\"a\": 1".data
      (by decide) (by decide) (by decide) (by decide) (by decide)).2.2.1⟩

/-! ### Per-stage bookkeeping lemmas: every model invocation is recorded by
exactly one usage record and one call record, and only the two Jira stages
write to the ticketing system. -/

/-- A successful `invokeLLM` leaves state and writes untouched and logs
exactly one call. -/
theorem invokeLLM_some (kind : ModelKind) (input : List CSMessage) (ex : Exec)
    (m : AIMsg) (ex2 : Exec) (h : invokeLLM kind input ex = some (m, ex2)) :
    ex2.st = ex.st ∧ ex2.writes = ex.writes ∧
    ex2.calls = ex.calls ++ [{ kind := kind, input := input }] := by
  unfold invokeLLM at h
  cases hs : ex.script with
  | nil => rw [hs] at h; simp at h
  | cons a rest =>
      rw [hs] at h
      simp only [Option.some.injEq, Prod.mk.injEq] at h
      obtain ⟨_, h2⟩ := h
      subst h2
      exact ⟨rfl, rfl, rfl⟩

/-- Categorization: one invocation, one usage record, no write. -/
theorem determine_step (ex ex2 : Exec) (e : Option CSError)
    (h : determine_ticket_category_tool ex = (ex2, e)) :
    ex2.st.usage.length + ex.calls.length =
      ex.st.usage.length + ex2.calls.length ∧
    ex2.writes = ex.writes := by
  unfold determine_ticket_category_tool at h
  cases hs : ex.script with
  | nil =>
      simp [invokeLLM, hs] at h
      obtain ⟨h1, _⟩ := h
      subst h1
      exact ⟨rfl, rfl⟩
  | cons m rest =>
      simp [invokeLLM, hs] at h
      obtain ⟨h1, _⟩ := h
      subst h1
      simp [addUsage]
      omega

/-- Category write-back: no invocation, appends exactly the category write. -/
theorem assign_step (ex ex2 : Exec) (e : Option CSError)
    (h : assign_ticket_category_in_jira_tool ex = (ex2, e)) :
    ex2.st = ex.st ∧ ex2.calls = ex.calls ∧ e = none ∧
    ex2.writes = ex.writes ++
      [{ ticket := ex.st.key, field := categoryFieldName,
         value := ex.st.category }] := by
  unfold assign_ticket_category_in_jira_tool at h
  simp only [Prod.mk.injEq] at h
  obtain ⟨h1, h2⟩ := h
  subst h1
  exact ⟨rfl, rfl, h2.symm, rfl⟩

/-- Transaction-id extraction: one invocation (vision or text), one usage
record, no write — also when the stage then fails on the parsed output. -/
theorem extractTxn_step (env : Env) (ex ex2 : Exec) (e : Option CSError)
    (h : extract_transaction_id_tool env ex = (ex2, e)) :
    ex2.st.usage.length + ex.calls.length =
      ex.st.usage.length + ex2.calls.length ∧
    ex2.writes = ex.writes := by
  unfold extract_transaction_id_tool at h
  cases hs : ex.script with
  | nil =>
      by_cases ha : ex.st.attachments.length > 0 <;>
        · simp [invokeLLM, hs, ha] at h
          obtain ⟨h1, _⟩ := h
          subst h1
          exact ⟨rfl, rfl⟩
  | cons m rest =>
      by_cases ha : ex.st.attachments.length > 0 <;>
        · simp [invokeLLM, hs, ha] at h
          split at h <;>
            [skip; split at h] <;>
            · simp only [Prod.mk.injEq] at h
              obtain ⟨h1, _⟩ := h
              subst h1
              simp [addUsage]
              omega

/-- Order-number extraction: one invocation, one usage record, no write. -/
theorem extractOrder_step (env : Env) (ex ex2 : Exec) (e : Option CSError)
    (h : extract_order_number_tool env ex = (ex2, e)) :
    ex2.st.usage.length + ex.calls.length =
      ex.st.usage.length + ex2.calls.length ∧
    ex2.writes = ex.writes := by
  unfold extract_order_number_tool at h
  cases hs : ex.script with
  | nil =>
      simp [invokeLLM, hs] at h
      obtain ⟨h1, _⟩ := h
      subst h1
      exact ⟨rfl, rfl⟩
  | cons m rest =>
      simp [invokeLLM, hs] at h
      split at h <;>
        [skip; split at h] <;>
        · simp only [Prod.mk.injEq] at h
          obtain ⟨h1, _⟩ := h
          subst h1
          simp [addUsage]
          omega

/-- Transaction lookup: no invocation, no write. -/
theorem findTxn_step (env : Env) (ex ex2 : Exec) (e : Option CSError)
    (h : find_transaction_details_tool env ex = (ex2, e)) :
    ex2.st.usage.length + ex.calls.length =
      ex.st.usage.length + ex2.calls.length ∧
    ex2.writes = ex.writes ∧ e = none := by
  unfold find_transaction_details_tool at h
  simp only [Prod.mk.injEq] at h
  obtain ⟨h1, h2⟩ := h
  subst h1
  exact ⟨rfl, rfl, h2.symm⟩

/-- Order lookup plus tool-bound invocation: one invocation, one usage record,
no write. -/
theorem findOrder_step (env : Env) (ex ex2 : Exec) (e : Option CSError)
    (h : find_order_details_tool env ex = (ex2, e)) :
    ex2.st.usage.length + ex.calls.length =
      ex.st.usage.length + ex2.calls.length ∧
    ex2.writes = ex.writes := by
  unfold find_order_details_tool at h
  cases hs : ex.script with
  | nil =>
      simp [invokeLLM, hs] at h
      obtain ⟨h1, _⟩ := h
      subst h1
      exact ⟨rfl, rfl⟩
  | cons m rest =>
      simp [invokeLLM, hs] at h
      obtain ⟨h1, _⟩ := h
      subst h1
      simp [addUsage]
      omega

/-- One ToolNode tool call: as many usage records as invocations (one for the
damage assessment, none for the refund lookup), no write. -/
theorem runToolCall_step (env : Env) (tc : ToolCall) (ex ex2 : Exec)
    (e : Option CSError) (h : runToolCall env tc ex = (ex2, e)) :
    ex2.st.usage.length + ex.calls.length =
      ex.st.usage.length + ex2.calls.length ∧
    ex2.writes = ex.writes := by
  unfold runToolCall assess_damaged_delivery at h
  cases hn : tc.name == "assess_damaged_delivery" with
  | true =>
      rw [hn] at h
      simp only [if_true] at h
      cases hs : ex.script with
      | nil =>
          simp [invokeLLM, hs] at h
          obtain ⟨h1, _⟩ := h
          subst h1
          exact ⟨rfl, rfl⟩
      | cons m rest =>
          simp [invokeLLM, hs] at h
          obtain ⟨h1, _⟩ := h
          subst h1
          simp [addUsage]
          omega
  | false =>
      rw [hn] at h
      simp only [Bool.false_eq_true, if_false] at h
      cases hn2 : tc.name == "find_refund_status" <;>
        · rw [hn2] at h
          simp only [Bool.false_eq_true, if_false, if_true] at h
          simp only [Prod.mk.injEq] at h
          obtain ⟨h1, _⟩ := h
          subst h1
          exact ⟨rfl, rfl⟩

/-- Sequential ToolNode execution: still one usage record per invocation and
no write. -/
theorem runToolCalls_step (env : Env) :
    ∀ (tcs : List ToolCall) (ex ex2 : Exec) (e : Option CSError),
      runToolCalls env tcs ex = (ex2, e) →
      ex2.st.usage.length + ex.calls.length =
        ex.st.usage.length + ex2.calls.length ∧
      ex2.writes = ex.writes := by
  intro tcs
  induction tcs with
  | nil =>
      intro ex ex2 e h
      simp [runToolCalls] at h
      obtain ⟨h1, _⟩ := h
      subst h1
      exact ⟨rfl, rfl⟩
  | cons tc rest ih =>
      intro ex ex2 e h
      simp only [runToolCalls] at h
      cases hr : runToolCall env tc ex with
      | mk ex' e' =>
          rw [hr] at h
          obtain ⟨hb, hw⟩ := runToolCall_step env tc ex ex' e' hr
          cases e' with
          | some err =>
              simp only [Prod.mk.injEq] at h
              obtain ⟨h1, _⟩ := h
              subst h1
              exact ⟨hb, hw⟩
          | none =>
              obtain ⟨hb2, hw2⟩ := ih ex' ex2 e h
              refine ⟨by omega, by rw [hw2, hw]⟩

/-- The tools node: one usage record per invocation, no write. -/
theorem toolsNode_step (env : Env) (ex ex2 : Exec) (e : Option CSError)
    (h : tools_node env ex = (ex2, e)) :
    ex2.st.usage.length + ex.calls.length =
      ex.st.usage.length + ex2.calls.length ∧
    ex2.writes = ex.writes := by
  unfold tools_node at h
  exact runToolCalls_step env _ ex ex2 e h

/-- Response generation: one invocation, one usage record, no write (the
tool-result collapse only rearranges messages). -/
theorem genResponse_step (ex ex2 : Exec) (e : Option CSError)
    (h : generate_response_tool ex = (ex2, e)) :
    ex2.st.usage.length + ex.calls.length =
      ex.st.usage.length + ex2.calls.length ∧
    ex2.writes = ex.writes := by
  unfold generate_response_tool at h
  cases hs : ex.script with
  | nil =>
      simp [invokeLLM, hs] at h
      obtain ⟨h1, _⟩ := h
      subst h1
      refine ⟨?_, rfl⟩
      split <;> rfl
  | cons m rest =>
      simp [invokeLLM, hs] at h
      obtain ⟨h1, _⟩ := h
      subst h1
      refine ⟨?_, rfl⟩
      split <;>
        · simp [addUsage]
          omega

/-- Response write-back: no invocation, appends exactly the response write. -/
theorem updateJira_step (ex ex2 : Exec) (e : Option CSError)
    (h : update_response_in_jira_tool ex = (ex2, e)) :
    ex2.st = ex.st ∧ ex2.calls = ex.calls ∧ e = none ∧
    ex2.writes = ex.writes ++
      [{ ticket := ex.st.key, field := responseFieldName,
         value := ex.st.response }] := by
  unfold update_response_in_jira_tool at h
  simp only [Prod.mk.injEq] at h
  obtain ⟨h1, h2⟩ := h
  subst h1
  exact ⟨rfl, rfl, h2.symm, rfl⟩

/-- The usage/calls invariant at END: nothing changes. -/
theorem runEnd_balance (ex : Exec) :
    (runEnd ex).2.1.st.usage.length + ex.calls.length =
      ex.st.usage.length + (runEnd ex).2.1.calls.length := rfl

/-- The usage/calls invariant through the response write-back. -/
theorem runUpdateJira_balance (ex : Exec) :
    (runUpdateJira ex).2.1.st.usage.length + ex.calls.length =
      ex.st.usage.length + (runUpdateJira ex).2.1.calls.length := by
  unfold runUpdateJira
  cases hstage : update_response_in_jira_tool ex with
  | mk ex2 e2 =>
      obtain ⟨hst, hcalls, -, -⟩ := updateJira_step ex ex2 e2 hstage
      cases e2 <;>
        · show ex2.st.usage.length + ex.calls.length =
            ex.st.usage.length + ex2.calls.length
          rw [hst, hcalls]

/-- The usage/calls invariant through response generation. -/
theorem runGenResponse_balance (ex : Exec) :
    (runGenResponse ex).2.1.st.usage.length + ex.calls.length =
      ex.st.usage.length + (runGenResponse ex).2.1.calls.length := by
  unfold runGenResponse
  cases hstage : generate_response_tool ex with
  | mk ex2 e2 =>
      have hstep := (genResponse_step ex ex2 e2 hstage).1
      cases e2 with
      | some e => exact hstep
      | none =>
          have hnext := runUpdateJira_balance ex2
          show (runUpdateJira ex2).2.1.st.usage.length + ex.calls.length =
            ex.st.usage.length + (runUpdateJira ex2).2.1.calls.length
          omega

/-- The usage/calls invariant through the tools node. -/
theorem runToolsNode_balance (env : Env) (ex : Exec) :
    (runToolsNode env ex).2.1.st.usage.length + ex.calls.length =
      ex.st.usage.length + (runToolsNode env ex).2.1.calls.length := by
  unfold runToolsNode
  cases hstage : tools_node env ex with
  | mk ex2 e2 =>
      have hstep := (toolsNode_step env ex ex2 e2 hstage).1
      cases e2 with
      | some e => exact hstep
      | none =>
          have hnext := runGenResponse_balance ex2
          show (runGenResponse ex2).2.1.st.usage.length + ex.calls.length =
            ex.st.usage.length + (runGenResponse ex2).2.1.calls.length
          omega

/-- The usage/calls invariant through the transaction lookup. -/
theorem runFindTxn_balance (env : Env) (ex : Exec) :
    (runFindTxn env ex).2.1.st.usage.length + ex.calls.length =
      ex.st.usage.length + (runFindTxn env ex).2.1.calls.length := by
  unfold runFindTxn
  cases hstage : find_transaction_details_tool env ex with
  | mk ex2 e2 =>
      have hstep := (findTxn_step env ex ex2 e2 hstage).1
      cases e2 with
      | some e => exact hstep
      | none =>
          have hnext := runGenResponse_balance ex2
          show (runGenResponse ex2).2.1.st.usage.length + ex.calls.length =
            ex.st.usage.length + (runGenResponse ex2).2.1.calls.length
          omega

/-- The usage/calls invariant through the order lookup and tool decision. -/
theorem runFindOrder_balance (env : Env) (ex : Exec) :
    (runFindOrder env ex).2.1.st.usage.length + ex.calls.length =
      ex.st.usage.length + (runFindOrder env ex).2.1.calls.length := by
  unfold runFindOrder
  cases hstage : find_order_details_tool env ex with
  | mk ex2 e2 =>
      have hstep := (findOrder_step env ex ex2 e2 hstage).1
      cases e2 with
      | some e => exact hstep
      | none =>
          dsimp only
          cases hc : order_query_decision ex2.st == "tools" with
          | false =>
              simp only [hc, Bool.false_eq_true, reduceIte]
              have hnext := runGenResponse_balance ex2
              omega
          | true =>
              simp only [hc, reduceIte]
              have hnext := runToolsNode_balance env ex2
              omega

/-- The usage/calls invariant through transaction-id extraction. -/
theorem runExtractTxn_balance (env : Env) (ex : Exec) :
    (runExtractTxn env ex).2.1.st.usage.length + ex.calls.length =
      ex.st.usage.length + (runExtractTxn env ex).2.1.calls.length := by
  unfold runExtractTxn
  cases hstage : extract_transaction_id_tool env ex with
  | mk ex2 e2 =>
      have hstep := (extractTxn_step env ex ex2 e2 hstage).1
      cases e2 with
      | some e => exact hstep
      | none =>
          have hnext := runFindTxn_balance env ex2
          show (runFindTxn env ex2).2.1.st.usage.length + ex.calls.length =
            ex.st.usage.length + (runFindTxn env ex2).2.1.calls.length
          omega

/-- The usage/calls invariant through order-number extraction. -/
theorem runExtractOrder_balance (env : Env) (ex : Exec) :
    (runExtractOrder env ex).2.1.st.usage.length + ex.calls.length =
      ex.st.usage.length + (runExtractOrder env ex).2.1.calls.length := by
  unfold runExtractOrder
  cases hstage : extract_order_number_tool env ex with
  | mk ex2 e2 =>
      have hstep := (extractOrder_step env ex ex2 e2 hstage).1
      cases e2 with
      | some e => exact hstep
      | none =>
          have hnext := runFindOrder_balance env ex2
          show (runFindOrder env ex2).2.1.st.usage.length + ex.calls.length =
            ex.st.usage.length + (runFindOrder env ex2).2.1.calls.length
          omega

/-- The usage/calls invariant through the category write-back and routing. -/
theorem runAssign_balance (env : Env) (ex : Exec) :
    (runAssign env ex).2.1.st.usage.length + ex.calls.length =
      ex.st.usage.length + (runAssign env ex).2.1.calls.length := by
  unfold runAssign
  cases hstage : assign_ticket_category_in_jira_tool ex with
  | mk ex2 e2 =>
      obtain ⟨hst, hcalls, -, -⟩ := assign_step ex ex2 e2 hstage
      cases e2 with
      | some e =>
          show ex2.st.usage.length + ex.calls.length =
            ex.st.usage.length + ex2.calls.length
          rw [hst, hcalls]
      | none =>
          dsimp only
          cases hc : decide_ticket_flow_condition ex2.st == "Extract Transaction ID" with
          | false =>
              simp only [hc, Bool.false_eq_true, reduceIte]
              rw [← hst, ← hcalls]
              exact runExtractOrder_balance env ex2
          | true =>
              simp only [hc, reduceIte]
              rw [← hst, ← hcalls]
              exact runExtractTxn_balance env ex2

/-- The usage/calls invariant through categorization (the whole graph). -/
theorem runDetermine_balance (env : Env) (ex : Exec) :
    (runDetermine env ex).2.1.st.usage.length + ex.calls.length =
      ex.st.usage.length + (runDetermine env ex).2.1.calls.length := by
  unfold runDetermine
  cases hstage : determine_ticket_category_tool ex with
  | mk ex2 e2 =>
      have hstep := (determine_step ex ex2 e2 hstage).1
      cases e2 with
      | some e => exact hstep
      | none =>
          have hnext := runAssign_balance env ex2
          show (runAssign env ex2).2.1.st.usage.length + ex.calls.length =
            ex.st.usage.length + (runAssign env ex2).2.1.calls.length
          omega

/-- The run-level usage/calls invariant: across the whole graph (failures
included), the usage log and the call log grow in lockstep. -/
theorem run_balance (env : Env) :
    ∀ (n : Node) (ex : Exec),
      (run env n ex).2.1.st.usage.length + ex.calls.length =
        ex.st.usage.length + (run env n ex).2.1.calls.length := by
  intro n ex
  cases n with
  | endNode => exact runEnd_balance ex
  | updateJira => exact runUpdateJira_balance ex
  | genResponse => exact runGenResponse_balance ex
  | toolsNode => exact runToolsNode_balance env ex
  | findTxn => exact runFindTxn_balance env ex
  | findOrder => exact runFindOrder_balance env ex
  | extractTxn => exact runExtractTxn_balance env ex
  | extractOrder => exact runExtractOrder_balance env ex
  | assignCategory => exact runAssign_balance env ex
  | determineCategory => exact runDetermine_balance env ex

/-- Every run trace starts with the node it was started from. -/
theorem run_head (env : Env) (n : Node) (ex : Exec) :
    ∃ t, (run env n ex).1 = n :: t := by
  cases n with
  | endNode => exact ⟨[], rfl⟩
  | updateJira =>
      show ∃ t, (runUpdateJira ex).1 = Node.updateJira :: t
      unfold runUpdateJira
      split
      · exact ⟨[], rfl⟩
      · exact ⟨_, rfl⟩
  | genResponse =>
      show ∃ t, (runGenResponse ex).1 = Node.genResponse :: t
      unfold runGenResponse
      split
      · exact ⟨[], rfl⟩
      · exact ⟨_, rfl⟩
  | toolsNode =>
      show ∃ t, (runToolsNode env ex).1 = Node.toolsNode :: t
      unfold runToolsNode
      split
      · exact ⟨[], rfl⟩
      · exact ⟨_, rfl⟩
  | findTxn =>
      show ∃ t, (runFindTxn env ex).1 = Node.findTxn :: t
      unfold runFindTxn
      split
      · exact ⟨[], rfl⟩
      · exact ⟨_, rfl⟩
  | findOrder =>
      show ∃ t, (runFindOrder env ex).1 = Node.findOrder :: t
      unfold runFindOrder
      split
      · exact ⟨[], rfl⟩
      · split
        · exact ⟨_, rfl⟩
        · exact ⟨_, rfl⟩
  | extractTxn =>
      show ∃ t, (runExtractTxn env ex).1 = Node.extractTxn :: t
      unfold runExtractTxn
      split
      · exact ⟨[], rfl⟩
      · exact ⟨_, rfl⟩
  | extractOrder =>
      show ∃ t, (runExtractOrder env ex).1 = Node.extractOrder :: t
      unfold runExtractOrder
      split
      · exact ⟨[], rfl⟩
      · exact ⟨_, rfl⟩
  | assignCategory =>
      show ∃ t, (runAssign env ex).1 = Node.assignCategory :: t
      unfold runAssign
      split
      · exact ⟨[], rfl⟩
      · split
        · exact ⟨_, rfl⟩
        · exact ⟨_, rfl⟩
  | determineCategory =>
      show ∃ t, (runDetermine env ex).1 = Node.determineCategory :: t
      unfold runDetermine
      split
      · exact ⟨[], rfl⟩
      · exact ⟨_, rfl⟩

/-- Traces from END stay within the reachable set. -/
theorem runEnd_subset (ex : Exec) : (runEnd ex).1 ⊆ reachable Node.endNode :=
  List.Subset.refl _

/-- Traces from the response write-back stay within the reachable set. -/
theorem runUpdateJira_subset (ex : Exec) :
    (runUpdateJira ex).1 ⊆ reachable Node.updateJira := by
  unfold runUpdateJira
  cases hstage : update_response_in_jira_tool ex with
  | mk ex2 e2 =>
      cases e2 with
      | some e =>
          show [Node.updateJira] ⊆ reachable Node.updateJira
          decide
      | none =>
          show Node.updateJira :: (runEnd ex2).1 ⊆ reachable Node.updateJira
          exact List.cons_subset.mpr
            ⟨by decide, List.Subset.trans (runEnd_subset ex2) (by decide)⟩

/-- Traces from response generation stay within the reachable set. -/
theorem runGenResponse_subset (ex : Exec) :
    (runGenResponse ex).1 ⊆ reachable Node.genResponse := by
  unfold runGenResponse
  cases hstage : generate_response_tool ex with
  | mk ex2 e2 =>
      cases e2 with
      | some e =>
          show [Node.genResponse] ⊆ reachable Node.genResponse
          decide
      | none =>
          show Node.genResponse :: (runUpdateJira ex2).1 ⊆ reachable Node.genResponse
          exact List.cons_subset.mpr
            ⟨by decide, List.Subset.trans (runUpdateJira_subset ex2) (by decide)⟩

/-- Traces from the tools node stay within the reachable set. -/
theorem runToolsNode_subset (env : Env) (ex : Exec) :
    (runToolsNode env ex).1 ⊆ reachable Node.toolsNode := by
  unfold runToolsNode
  cases hstage : tools_node env ex with
  | mk ex2 e2 =>
      cases e2 with
      | some e =>
          show [Node.toolsNode] ⊆ reachable Node.toolsNode
          decide
      | none =>
          show Node.toolsNode :: (runGenResponse ex2).1 ⊆ reachable Node.toolsNode
          exact List.cons_subset.mpr
            ⟨by decide, List.Subset.trans (runGenResponse_subset ex2) (by decide)⟩

/-- Traces from the transaction lookup stay within the reachable set. -/
theorem runFindTxn_subset (env : Env) (ex : Exec) :
    (runFindTxn env ex).1 ⊆ reachable Node.findTxn := by
  unfold runFindTxn
  cases hstage : find_transaction_details_tool env ex with
  | mk ex2 e2 =>
      cases e2 with
      | some e =>
          show [Node.findTxn] ⊆ reachable Node.findTxn
          decide
      | none =>
          show Node.findTxn :: (runGenResponse ex2).1 ⊆ reachable Node.findTxn
          exact List.cons_subset.mpr
            ⟨by decide, List.Subset.trans (runGenResponse_subset ex2) (by decide)⟩

/-- Traces from the order lookup stay within the reachable set. -/
theorem runFindOrder_subset (env : Env) (ex : Exec) :
    (runFindOrder env ex).1 ⊆ reachable Node.findOrder := by
  unfold runFindOrder
  cases hstage : find_order_details_tool env ex with
  | mk ex2 e2 =>
      cases e2 with
      | some e =>
          show [Node.findOrder] ⊆ reachable Node.findOrder
          decide
      | none =>
          dsimp only
          cases hc : order_query_decision ex2.st == "tools" with
          | false =>
              simp only [hc, Bool.false_eq_true, reduceIte]
              exact List.cons_subset.mpr
                ⟨by decide, List.Subset.trans (runGenResponse_subset ex2) (by decide)⟩
          | true =>
              simp only [hc, reduceIte]
              exact List.cons_subset.mpr
                ⟨by decide, List.Subset.trans (runToolsNode_subset env ex2) (by decide)⟩

/-- Traces from transaction-id extraction stay within the reachable set. -/
theorem runExtractTxn_subset (env : Env) (ex : Exec) :
    (runExtractTxn env ex).1 ⊆ reachable Node.extractTxn := by
  unfold runExtractTxn
  cases hstage : extract_transaction_id_tool env ex with
  | mk ex2 e2 =>
      cases e2 with
      | some e =>
          show [Node.extractTxn] ⊆ reachable Node.extractTxn
          decide
      | none =>
          show Node.extractTxn :: (runFindTxn env ex2).1 ⊆ reachable Node.extractTxn
          exact List.cons_subset.mpr
            ⟨by decide, List.Subset.trans (runFindTxn_subset env ex2) (by decide)⟩

/-- Traces from order-number extraction stay within the reachable set. -/
theorem runExtractOrder_subset (env : Env) (ex : Exec) :
    (runExtractOrder env ex).1 ⊆ reachable Node.extractOrder := by
  unfold runExtractOrder
  cases hstage : extract_order_number_tool env ex with
  | mk ex2 e2 =>
      cases e2 with
      | some e =>
          show [Node.extractOrder] ⊆ reachable Node.extractOrder
          decide
      | none =>
          show Node.extractOrder :: (runFindOrder env ex2).1 ⊆ reachable Node.extractOrder
          exact List.cons_subset.mpr
            ⟨by decide, List.Subset.trans (runFindOrder_subset env ex2) (by decide)⟩

/-- Appending a non-response write preserves the no-response-write property. -/
theorem noResponseWrite_append (ws : List JiraWrite) (w : JiraWrite)
    (hws : noResponseWrite ws) (hw : w.field ≠ responseFieldName) :
    noResponseWrite (ws ++ [w]) := by
  intro x hx
  rcases List.mem_append.mp hx with h1 | h1
  · exact hws x h1
  · simp only [List.mem_singleton] at h1
    subst h1
    exact hw

/-- The category and response custom fields are distinct. -/
theorem categoryField_ne_response : categoryFieldName ≠ responseFieldName := by
  decide

/-- The END node never fails. -/
theorem runEnd_fail_writes (ex : Exec) :
    noResponseWrite ex.writes → (runEnd ex).2.2 ≠ none →
    noResponseWrite (runEnd ex).2.1.writes := fun _ hne => absurd rfl hne

/-- A failing run from the response write-back adds no response write
(its write succeeds and its continuation cannot fail, so this branch is in
fact unreachable). -/
theorem runUpdateJira_fail_writes (ex : Exec) :
    noResponseWrite ex.writes → (runUpdateJira ex).2.2 ≠ none →
    noResponseWrite (runUpdateJira ex).2.1.writes := by
  unfold runUpdateJira
  cases hstage : update_response_in_jira_tool ex with
  | mk ex2 e2 =>
      obtain ⟨-, -, hnone, -⟩ := updateJira_step ex ex2 e2 hstage
      subst hnone
      intro _ hne
      exact absurd rfl hne

/-- A failing run from response generation adds no response write. -/
theorem runGenResponse_fail_writes (ex : Exec) :
    noResponseWrite ex.writes → (runGenResponse ex).2.2 ≠ none →
    noResponseWrite (runGenResponse ex).2.1.writes := by
  unfold runGenResponse
  cases hstage : generate_response_tool ex with
  | mk ex2 e2 =>
      have hwr := (genResponse_step ex ex2 e2 hstage).2
      cases e2 with
      | some e =>
          intro hw _
          show noResponseWrite ex2.writes
          rw [hwr]
          exact hw
      | none =>
          intro hw hne
          exact runUpdateJira_fail_writes ex2 (by rw [hwr]; exact hw) hne

/-- A failing run from the tools node adds no response write. -/
theorem runToolsNode_fail_writes (env : Env) (ex : Exec) :
    noResponseWrite ex.writes → (runToolsNode env ex).2.2 ≠ none →
    noResponseWrite (runToolsNode env ex).2.1.writes := by
  unfold runToolsNode
  cases hstage : tools_node env ex with
  | mk ex2 e2 =>
      have hwr := (toolsNode_step env ex ex2 e2 hstage).2
      cases e2 with
      | some e =>
          intro hw _
          show noResponseWrite ex2.writes
          rw [hwr]
          exact hw
      | none =>
          intro hw hne
          exact runGenResponse_fail_writes ex2 (by rw [hwr]; exact hw) hne

/-- A failing run from the transaction lookup adds no response write. -/
theorem runFindTxn_fail_writes (env : Env) (ex : Exec) :
    noResponseWrite ex.writes → (runFindTxn env ex).2.2 ≠ none →
    noResponseWrite (runFindTxn env ex).2.1.writes := by
  unfold runFindTxn
  cases hstage : find_transaction_details_tool env ex with
  | mk ex2 e2 =>
      have hwr := (findTxn_step env ex ex2 e2 hstage).2.1
      cases e2 with
      | some e =>
          intro hw _
          show noResponseWrite ex2.writes
          rw [hwr]
          exact hw
      | none =>
          intro hw hne
          exact runGenResponse_fail_writes ex2 (by rw [hwr]; exact hw) hne

/-- A failing run from the order lookup adds no response write. -/
theorem runFindOrder_fail_writes (env : Env) (ex : Exec) :
    noResponseWrite ex.writes → (runFindOrder env ex).2.2 ≠ none →
    noResponseWrite (runFindOrder env ex).2.1.writes := by
  unfold runFindOrder
  cases hstage : find_order_details_tool env ex with
  | mk ex2 e2 =>
      have hwr := (findOrder_step env ex ex2 e2 hstage).2
      cases e2 with
      | some e =>
          intro hw _
          show noResponseWrite ex2.writes
          rw [hwr]
          exact hw
      | none =>
          dsimp only
          cases hc : order_query_decision ex2.st == "tools" with
          | false =>
              simp only [hc, Bool.false_eq_true, reduceIte]
              intro hw hne
              exact runGenResponse_fail_writes ex2 (by rw [hwr]; exact hw) hne
          | true =>
              simp only [hc, reduceIte]
              intro hw hne
              exact runToolsNode_fail_writes env ex2 (by rw [hwr]; exact hw) hne

/-- A failing run from transaction-id extraction adds no response write. -/
theorem runExtractTxn_fail_writes (env : Env) (ex : Exec) :
    noResponseWrite ex.writes → (runExtractTxn env ex).2.2 ≠ none →
    noResponseWrite (runExtractTxn env ex).2.1.writes := by
  unfold runExtractTxn
  cases hstage : extract_transaction_id_tool env ex with
  | mk ex2 e2 =>
      have hwr := (extractTxn_step env ex ex2 e2 hstage).2
      cases e2 with
      | some e =>
          intro hw _
          show noResponseWrite ex2.writes
          rw [hwr]
          exact hw
      | none =>
          intro hw hne
          exact runFindTxn_fail_writes env ex2 (by rw [hwr]; exact hw) hne

/-- A failing run from order-number extraction adds no response write. -/
theorem runExtractOrder_fail_writes (env : Env) (ex : Exec) :
    noResponseWrite ex.writes → (runExtractOrder env ex).2.2 ≠ none →
    noResponseWrite (runExtractOrder env ex).2.1.writes := by
  unfold runExtractOrder
  cases hstage : extract_order_number_tool env ex with
  | mk ex2 e2 =>
      have hwr := (extractOrder_step env ex ex2 e2 hstage).2
      cases e2 with
      | some e =>
          intro hw _
          show noResponseWrite ex2.writes
          rw [hwr]
          exact hw
      | none =>
          intro hw hne
          exact runFindOrder_fail_writes env ex2 (by rw [hwr]; exact hw) hne

/-- A failing run from the category write-back adds no response write (the
category write targets the distinct category custom field). -/
theorem runAssign_fail_writes (env : Env) (ex : Exec) :
    noResponseWrite ex.writes → (runAssign env ex).2.2 ≠ none →
    noResponseWrite (runAssign env ex).2.1.writes := by
  unfold runAssign
  cases hstage : assign_ticket_category_in_jira_tool ex with
  | mk ex2 e2 =>
      obtain ⟨-, -, hnone, hwr⟩ := assign_step ex ex2 e2 hstage
      subst hnone
      dsimp only
      cases hc : decide_ticket_flow_condition ex2.st == "Extract Transaction ID" with
      | false =>
          simp only [hc, Bool.false_eq_true, reduceIte]
          intro hw hne
          refine runExtractOrder_fail_writes env ex2 ?_ hne
          rw [hwr]
          exact noResponseWrite_append _ _ hw categoryField_ne_response
      | true =>
          simp only [hc, reduceIte]
          intro hw hne
          refine runExtractTxn_fail_writes env ex2 ?_ hne
          rw [hwr]
          exact noResponseWrite_append _ _ hw categoryField_ne_response

/-- A failing run from categorization adds no response write. -/
theorem runDetermine_fail_writes (env : Env) (ex : Exec) :
    noResponseWrite ex.writes → (runDetermine env ex).2.2 ≠ none →
    noResponseWrite (runDetermine env ex).2.1.writes := by
  unfold runDetermine
  cases hstage : determine_ticket_category_tool ex with
  | mk ex2 e2 =>
      have hwr := (determine_step ex ex2 e2 hstage).2
      cases e2 with
      | some e =>
          intro hw _
          show noResponseWrite ex2.writes
          rw [hwr]
          exact hw
      | none =>
          intro hw hne
          exact runAssign_fail_writes env ex2 (by rw [hwr]; exact hw) hne

/-- A failing run never adds a response-field write: the response custom field
is written only by the terminal write-back node, whose own write succeeds and
whose continuation cannot fail. -/
theorem run_fail_writes (env : Env) :
    ∀ (n : Node) (ex : Exec),
      noResponseWrite ex.writes → (run env n ex).2.2 ≠ none →
      noResponseWrite (run env n ex).2.1.writes := by
  intro n ex
  cases n with
  | endNode => exact runEnd_fail_writes ex
  | updateJira => exact runUpdateJira_fail_writes ex
  | genResponse => exact runGenResponse_fail_writes ex
  | toolsNode => exact runToolsNode_fail_writes env ex
  | findTxn => exact runFindTxn_fail_writes env ex
  | findOrder => exact runFindOrder_fail_writes env ex
  | extractTxn => exact runExtractTxn_fail_writes env ex
  | extractOrder => exact runExtractOrder_fail_writes env ex
  | assignCategory => exact runAssign_fail_writes env ex
  | determineCategory => exact runDetermine_fail_writes env ex

/-- A run started at transaction-id extraction always visits that node. -/
theorem visits_extractTxn (env : Env) (ex2 : Exec) :
    Node.extractTxn ∈ (runExtractTxn env ex2).1 := by
  unfold runExtractTxn
  split
  · exact List.mem_singleton.mpr rfl
  · exact List.mem_cons_self _ _

/-- A run started at transaction-id extraction never visits order-number
extraction. -/
theorem no_extractOrder_from_extractTxn (env : Env) (ex2 : Exec) :
    Node.extractOrder ∉ (runExtractTxn env ex2).1 := fun hmem =>
  absurd (runExtractTxn_subset env ex2 hmem) (by decide)

/-- A successful run from transaction-id extraction reaches the transaction
lookup node. -/
theorem runExtractTxn_ok_visits (env : Env) (ex : Exec)
    (hok : (runExtractTxn env ex).2.2 = none) :
    Node.findTxn ∈ (runExtractTxn env ex).1 := by
  unfold runExtractTxn at hok ⊢
  cases hstage : extract_transaction_id_tool env ex with
  | mk ex3 e3 =>
      rw [hstage] at hok
      cases e3 with
      | some e => simp at hok
      | none =>
          obtain ⟨t, ht⟩ := run_head env .findTxn ex3
          have ht2 : (runFindTxn env ex3).1 = Node.findTxn :: t := ht
          show Node.findTxn ∈ Node.extractTxn :: (runFindTxn env ex3).1
          simp [ht2]

/-- A run started at order-number extraction always visits that node. -/
theorem visits_extractOrder (env : Env) (ex2 : Exec) :
    Node.extractOrder ∈ (runExtractOrder env ex2).1 := by
  unfold runExtractOrder
  split
  · exact List.mem_singleton.mpr rfl
  · exact List.mem_cons_self _ _

/-- A run started at order-number extraction never visits transaction-id
extraction. -/
theorem no_extractTxn_from_extractOrder (env : Env) (ex2 : Exec) :
    Node.extractTxn ∉ (runExtractOrder env ex2).1 := fun hmem =>
  absurd (runExtractOrder_subset env ex2 hmem) (by decide)

/-- A successful run from order-number extraction reaches the order lookup
node. -/
theorem runExtractOrder_ok_visits (env : Env) (ex : Exec)
    (hok : (runExtractOrder env ex).2.2 = none) :
    Node.findOrder ∈ (runExtractOrder env ex).1 := by
  unfold runExtractOrder at hok ⊢
  cases hstage : extract_order_number_tool env ex with
  | mk ex3 e3 =>
      rw [hstage] at hok
      cases e3 with
      | some e => simp at hok
      | none =>
          obtain ⟨t, ht⟩ := run_head env .findOrder ex3
          have ht2 : (runFindOrder env ex3).1 = Node.findOrder :: t := ht
          show Node.findOrder ∈ Node.extractOrder :: (runFindOrder env ex3).1
          simp [ht2]

/-- Claim C2: for every ticket run from workflow entry (fresh usage and call
logs, as built by `get_jira_ticket`), the final usage-log length equals the
number of model invocations made — the call log records exactly one entry per
model invocation (including the one made inside the damage-assessment tool run
by the tools node), and the usage log keeps in lockstep with it. -/
theorem C2_usage_equals_invocations (env : Env) (ex : Exec)
    (husage : ex.st.usage = []) (hcalls : ex.calls = []) :
    (run env .determineCategory ex).2.1.st.usage.length =
      (run env .determineCategory ex).2.1.calls.length := by
  have h := run_balance env .determineCategory ex
  rw [husage, hcalls] at h
  simpa using h

/-- Claim C2, witness: a complete delivery-ticket run making five model
invocations — categorization, order extraction, order details, the vision
call made from inside the damage-assessment tool, and response generation —
ends with five usage records. -/
theorem C2_witness :
    (run csEnvDemo .determineCategory csExecDemo).2.2 = none ∧
    (run csEnvDemo .determineCategory csExecDemo).2.1.calls.length = 5 ∧
    (run csEnvDemo .determineCategory csExecDemo).2.1.st.usage.length =
      (run csEnvDemo .determineCategory csExecDemo).2.1.calls.length :=
  ⟨by decide, by decide, C2_usage_equals_invocations csEnvDemo csExecDemo rfl rfl⟩

/-- Claim C5, counterexample.  A transaction ticket whose extraction answer
misses the required key fails stage-fatally, yet the ticketing system has
already been written to: the category custom field was updated by the
write-back stage before the failure, so the failing run's write log is not
empty. -/
theorem C5_counterexample :
    (run csEnvDemo .determineCategory csExecBad).2.2 =
      some (CSError.missingKey "transactionid") ∧
    (run csEnvDemo .determineCategory csExecBad).2.1.writes =
      [{ ticket := "AS-2", field := categoryFieldName, value := "Transaction" }] ∧
    (run csEnvDemo .determineCategory csExecBad).2.1.writes ≠ [] := by
  exact ⟨by decide, by decide, by decide⟩

/-- Claim C5 (amended): a ticket whose processing fails never has its RESPONSE
custom field written in that run — the response write happens only in the
terminal write-back after compose succeeded — but the CATEGORY custom field
may already have been written, since the category write-back precedes the
extraction stages. -/
theorem C5_failed_ticket_response_unwritten (env : Env) (ex : Exec) (e : CSError)
    (hw : noResponseWrite ex.writes)
    (herr : (run env .determineCategory ex).2.2 = some e) :
    noResponseWrite (run env .determineCategory ex).2.1.writes :=
  run_fail_writes env .determineCategory ex hw
    (by rw [herr]; exact Option.some_ne_none e)

/-- Claim C5, witness: the failing transaction ticket has no response write
in its log (only the category write). -/
theorem C5_witness :
    noResponseWrite (run csEnvDemo .determineCategory csExecBad).2.1.writes :=
  C5_failed_ticket_response_unwritten csEnvDemo csExecBad
    (.missingKey "transactionid")
    (fun w hw2 => absurd hw2 (List.not_mem_nil w))
    (by decide)

/-- Claim C6: from the routing predicate after the category write-back, a
category equal to `Transaction` case-insensitively routes through
Extract-transaction-id (and, when the run succeeds, Lookup-transaction) and
never visits Extract-order-number; any other category routes through
Extract-order-number (and, on success, Lookup-order) and never visits
Extract-transaction-id. -/
theorem C6_routing (env : Env) (ex : Exec) :
    (lower ex.st.category = "transaction" →
      Node.extractTxn ∈ (run env .assignCategory ex).1 ∧
      Node.extractOrder ∉ (run env .assignCategory ex).1 ∧
      ((run env .assignCategory ex).2.2 = none →
        Node.findTxn ∈ (run env .assignCategory ex).1)) ∧
    (lower ex.st.category ≠ "transaction" →
      Node.extractOrder ∈ (run env .assignCategory ex).1 ∧
      Node.extractTxn ∉ (run env .assignCategory ex).1 ∧
      ((run env .assignCategory ex).2.2 = none →
        Node.findOrder ∈ (run env .assignCategory ex).1)) := by
  constructor
  · intro hcat
    have hcond : (decide_ticket_flow_condition ex.st == "Extract Transaction ID")
        = true := by
      simp [decide_ticket_flow_condition, hcat]
    show Node.extractTxn ∈ (runAssign env ex).1 ∧
      Node.extractOrder ∉ (runAssign env ex).1 ∧
      ((runAssign env ex).2.2 = none → Node.findTxn ∈ (runAssign env ex).1)
    unfold runAssign assign_ticket_category_in_jira_tool
    dsimp only
    simp only [hcond, reduceIte]
    refine ⟨?_, ?_, ?_⟩
    · exact List.mem_cons_of_mem _ (visits_extractTxn env _)
    · intro hmem
      rcases List.mem_cons.mp hmem with h | h
      · exact absurd h (by decide)
      · exact no_extractOrder_from_extractTxn env _ h
    · intro hok
      exact List.mem_cons_of_mem _ (runExtractTxn_ok_visits env _ hok)
  · intro hcat
    have hcond : (decide_ticket_flow_condition ex.st == "Extract Transaction ID")
        = false := by
      have hne : (lower ex.st.category == "transaction") = false :=
        beq_eq_false_iff_ne.mpr hcat
      simp [decide_ticket_flow_condition, hne]
    show Node.extractOrder ∈ (runAssign env ex).1 ∧
      Node.extractTxn ∉ (runAssign env ex).1 ∧
      ((runAssign env ex).2.2 = none → Node.findOrder ∈ (runAssign env ex).1)
    unfold runAssign assign_ticket_category_in_jira_tool
    dsimp only
    simp only [hcond, Bool.false_eq_true, reduceIte]
    refine ⟨?_, ?_, ?_⟩
    · exact List.mem_cons_of_mem _ (visits_extractOrder env _)
    · intro hmem
      rcases List.mem_cons.mp hmem with h | h
      · exact absurd h (by decide)
      · exact no_extractTxn_from_extractOrder env _ h
    · intro hok
      exact List.mem_cons_of_mem _ (runExtractOrder_ok_visits env _ hok)

/-- Claim C6, witness: a Transaction-category run visits transaction
extraction and lookup and avoids order extraction; a Refunds-category run
does the reverse. -/
theorem C6_witness :
    (Node.extractTxn ∈ (run csEnvDemo .assignCategory csExecRouteTxn).1 ∧
     Node.extractOrder ∉ (run csEnvDemo .assignCategory csExecRouteTxn).1 ∧
     Node.findTxn ∈ (run csEnvDemo .assignCategory csExecRouteTxn).1) ∧
    (Node.extractOrder ∈ (run csEnvDemo .assignCategory csExecRouteRefunds).1 ∧
     Node.extractTxn ∉ (run csEnvDemo .assignCategory csExecRouteRefunds).1 ∧
     Node.findOrder ∈ (run csEnvDemo .assignCategory csExecRouteRefunds).1) := by
  obtain ⟨h1, h2, h3⟩ := (C6_routing csEnvDemo csExecRouteTxn).1 (by decide)
  obtain ⟨h4, h5, h6⟩ := (C6_routing csEnvDemo csExecRouteRefunds).2 (by decide)
  exact ⟨⟨h1, h2, h3 (by decide)⟩, ⟨h4, h5, h6 (by decide)⟩⟩

set_option maxRecDepth 4096 in
/-- Claim C9, counterexample.  A ticket WITH an image attachment reaching
order-number extraction is still answered by a text-only invocation over the
full conversation (system prompt history included) — the vision branch exists
only in the transaction-id extraction stage. -/
theorem C9_counterexample :
    csExecOrderImage.st.attachments ≠ [] ∧
    (extract_order_number_tool csEnvDemo csExecOrderImage).1.calls =
      [{ kind := ModelKind.text,
         input := csExecOrderImage.st.messages ++
                    [.human [.text orderNoPrompt]] }] := by
  exact ⟨by decide, by decide⟩

/-- Claim C9 (amended): only the transaction-id extraction stage branches on
the image attachment — with an attachment it invokes the vision client on
ONLY the extraction prompt plus the first image, without one it invokes the
text client on the full conversation; the order-number extraction stage
always invokes the text client on the full conversation, attachments or not. -/
theorem C9_extraction_inputs (env : Env) (ex : Exec) (m : AIMsg)
    (rest : List AIMsg) (hscript : ex.script = m :: rest) :
    (ex.st.attachments ≠ [] →
      (extract_transaction_id_tool env ex).1.calls =
        ex.calls ++ [{ kind := ModelKind.vision,
                       input := [.human [.text txnIdPrompt,
                                         .image (ex.st.attachments.headD "")]] }]) ∧
    (ex.st.attachments = [] →
      (extract_transaction_id_tool env ex).1.calls =
        ex.calls ++ [{ kind := ModelKind.text,
                       input := ex.st.messages ++
                                  [.human [.text txnIdPrompt]] }]) ∧
    ((extract_order_number_tool env ex).1.calls =
      ex.calls ++ [{ kind := ModelKind.text,
                     input := ex.st.messages ++
                                [.human [.text orderNoPrompt]] }]) := by
  refine ⟨?_, ?_, ?_⟩
  · intro hatt
    have hlen : 0 < ex.st.attachments.length := List.length_pos.mpr hatt
    unfold extract_transaction_id_tool
    dsimp only
    simp only [hlen, reduceIte, invokeLLM, hscript]
    split
    · rfl
    · split <;> rfl
  · intro hatt
    unfold extract_transaction_id_tool
    dsimp only
    simp only [hatt, List.length_nil, gt_iff_lt, lt_self_iff_false, reduceIte,
      invokeLLM, hscript]
    split
    · rfl
    · split <;> rfl
  · unfold extract_order_number_tool
    dsimp only
    simp only [invokeLLM, hscript]
    split
    · rfl
    · split <;> rfl

/-- Claim C9, witness: the transaction stage uses vision with only
prompt-plus-image when an attachment exists and the text client over the full
conversation when none does; the order stage always uses the text client over
the full conversation. -/
theorem C9_witness :
    (extract_transaction_id_tool csEnvDemo csExecTxnImage).1.calls =
      [{ kind := ModelKind.vision,
         input := [.human [.text txnIdPrompt,
                           .image "./data/temp/AS-7-shot.png"]] }] ∧
    (extract_transaction_id_tool csEnvDemo csExecTxnNoImage).1.calls =
      [{ kind := ModelKind.text,
         input := csExecTxnNoImage.st.messages ++
                    [.human [.text txnIdPrompt]] }] ∧
    (extract_order_number_tool csEnvDemo csExecTxnNoImage).1.calls =
      [{ kind := ModelKind.text,
         input := csExecTxnNoImage.st.messages ++
                    [.human [.text orderNoPrompt]] }] :=
  ⟨(C9_extraction_inputs csEnvDemo csExecTxnImage aiTxn [] rfl).1 (by decide),
   (C9_extraction_inputs csEnvDemo csExecTxnNoImage aiTxn [] rfl).2.1 rfl,
   (C9_extraction_inputs csEnvDemo csExecTxnNoImage aiTxn [] rfl).2.2⟩

end CS

end MistralOnAws
